import Mathlib

/-!
# Subscription service: month parsing, request validation and the summary query

A shallow embedding of `pkg/date/date.go`, `internal/httpapi/subscription.go` and
`internal/repository/subscription_repo.go`.

Conventions of the embedding

* A Go `string` is a Lean `String`, that is, valid UTF-8 text. `strings.TrimSpace`,
  `time.Parse` and `strconv.Atoi` are modelled on its list of code points: they accept only
  texts made of ASCII bytes, on which bytes and code points coincide. `uuid.Parse` switches
  on the length of the text in bytes and is modelled on the UTF-8 bytes of the text.
* `time.Time` is represented by its civil fields together with its location. All values the
  service builds come from `time.Date(y, m, 1, 0, 0, 0, 0, time.UTC)` with in-range fields,
  for which `Year`/`Month` return the arguments and `Before` is the lexicographic order.
* A Go `error` result is an `Option`/`Except`; `int` is `Int`.
-/

namespace strings

/-- White space in the sense of Go's `unicode.IsSpace`. -/
def isSpace (c : Char) : Bool :=
  let n := c.toNat
  n == 0x09 || n == 0x0A || n == 0x0B || n == 0x0C || n == 0x0D || n == 0x20 ||
  n == 0x85 || n == 0xA0 || n == 0x1680 || (decide (0x2000 ≤ n) && decide (n ≤ 0x200A)) ||
  n == 0x2028 || n == 0x2029 || n == 0x202F || n == 0x205F || n == 0x3000

/-- Go's `strings.TrimSpace`: drops leading and trailing white space. -/
def TrimSpace (s : List Char) : List Char :=
  ((s.dropWhile isSpace).reverse.dropWhile isSpace).reverse

end strings

namespace time

/-- Locations of a `time.Time`; the service only ever uses `time.UTC`. -/
inductive Location where
  | UTC
  | Local
deriving DecidableEq, Repr

/-- Civil-field representation of Go's `time.Time`. -/
structure Time where
  year : Int
  month : Int
  day : Int
  hour : Int
  min : Int
  sec : Int
  nsec : Int
  loc : Location
deriving DecidableEq, Repr

/-- Go's `time.Date` on in-range arguments (no normalisation is needed for them). -/
def Date (year month day hour min sec nsec : Int) (loc : Location) : Time :=
  { year := year, month := month, day := day, hour := hour, min := min, sec := sec,
    nsec := nsec, loc := loc }

/-- Go's `Time.Year`. -/
def Time.Year (t : Time) : Int := t.year

/-- Go's `Time.Month`. -/
def Time.Month (t : Time) : Int := t.month

/-- Go's `Time.Before` for two times of the same location: the instant of `t` is earlier
than the instant of `u`. -/
def Time.Before (t u : Time) : Bool :=
  decide (t.year < u.year) || (decide (t.year = u.year) &&
  (decide (t.month < u.month) || (decide (t.month = u.month) &&
  (decide (t.day < u.day) || (decide (t.day = u.day) &&
  (decide (t.hour < u.hour) || (decide (t.hour = u.hour) &&
  (decide (t.min < u.min) || (decide (t.min = u.min) &&
  (decide (t.sec < u.sec) || (decide (t.sec = u.sec) &&
  decide (t.nsec < u.nsec))))))))))))

/-- The layout elements that occur in the layouts `2006-01` and `01-2006`. -/
inductive Std where
  | stdLongYear
  | stdZeroMonth
deriving DecidableEq, Repr

/-- A layout as the sequence `nextStdChunk` cuts it into: each element with the literal
prefix that precedes it. Both layouts end with an empty literal suffix. -/
abbrev Layout := List (List Char × Std)

/-- The chunks of the layout `2006-01`. -/
def layoutYearMonth : Layout := [([], Std.stdLongYear), (['-'], Std.stdZeroMonth)]

/-- The chunks of the layout `01-2006`. -/
def layoutMonthYear : Layout := [([], Std.stdZeroMonth), (['-'], Std.stdLongYear)]

/-- Go's `isDigit(s, i)`: index `i` is in range and holds an ASCII digit. -/
def isDigit (s : List Char) (i : Nat) : Bool :=
  match s.get? i with
  | none => false
  | some c => decide (48 ≤ c.toNat) && decide (c.toNat ≤ 57)

/-- Go's `leadingInt`: consumes the leading digits of `s`, accumulating into `x`; fails on
overflow of the unsigned 64-bit accumulator. -/
def leadingInt : List Char → Nat → Option (Nat × List Char)
  | [], x => some (x, [])
  | c :: cs, x =>
    if c.toNat < 48 || c.toNat > 57 then some (x, c :: cs)
    else if x > 2 ^ 63 / 10 then none
    else
      let y := x * 10 + (c.toNat - 48)
      if y > 2 ^ 63 then none else leadingInt cs y

/-- Go's `time.atoi`: an optional sign followed by digits only. -/
def atoi (s : List Char) : Option Int :=
  let signed : Bool × List Char :=
    match s with
    | c :: cs => if c = '-' || c = '+' then (decide (c = '-'), cs) else (false, s)
    | [] => (false, s)
  match leadingInt signed.2 0 with
  | none => none
  | some (q, rem) =>
    if rem.length > 0 then none
    else
      let x : Int := if q < 2 ^ 63 then (q : Int) else (q : Int) - 2 ^ 64
      some (if signed.1 then -x else x)

/-- Go's `getnum`: one or two leading digits; with `fixed` exactly two are required. -/
def getnum (s : List Char) (fixed : Bool) : Option (Int × List Char) :=
  if !isDigit s 0 then none
  else if !isDigit s 1 then
    if fixed then none
    else
      match s with
      | c :: cs => some (((c.toNat - 48 : Nat) : Int), cs)
      | [] => none
  else
    match s with
    | c :: d :: cs => some ((((c.toNat - 48) * 10 + (d.toNat - 48) : Nat) : Int), cs)
    | _ => none

/-- Go's `skip` for a literal prefix without blanks (the only kind the two layouts have):
the value must start with the prefix, which is removed. -/
def skip : List Char → List Char → Option (List Char)
  | value, [] => some value
  | [], _ :: _ => none
  | v :: vs, p :: ps => if v ≠ p then none else skip vs ps

/-- The fields `Parse` accumulates, with their initial values. -/
structure Fields where
  year : Int := 0
  month : Int := -1
  day : Int := -1
deriving DecidableEq, Repr

/-- One iteration of the switch of `Parse` for the element `std`. -/
def parseStd (std : Std) (value : List Char) (f : Fields) : Option (Fields × List Char) :=
  match std with
  | Std.stdLongYear =>
    if value.length < 4 || !isDigit value 0 then none
    else
      match atoi (value.take 4) with
      | none => none
      | some y => some ({ f with year := y }, value.drop 4)
  | Std.stdZeroMonth =>
    match getnum value true with
    | none => none
    | some (m, rest) =>
      if m ≤ 0 || 12 < m then none else some ({ f with month := m }, rest)

/-- The loop of `Parse` over the chunks of the layout. -/
def parseLoop : Layout → List Char → Fields → Option (Fields × List Char)
  | [], value, f => some (f, value)
  | (pre, std) :: rest, value, f =>
    match skip value pre with
    | none => none
    | some v =>
      match parseStd std v f with
      | none => none
      | some (f2, v2) => parseLoop rest v2 f2

/-- Go's `isLeap`. -/
def isLeap (year : Int) : Bool :=
  year % 4 == 0 && (year % 100 != 0 || year % 400 == 0)

/-- Go's `daysIn`. -/
def daysIn (month : Int) (year : Int) : Int :=
  if month = 2 then (if isLeap year then 29 else 28)
  else if month = 4 || month = 6 || month = 9 || month = 11 then 30
  else 31

/-- Go's `time.Parse` for a layout made of year and month elements: runs the loop, rejects
left-over text, defaults the missing month and day to 1, checks the day and builds the time
in UTC. -/
def Parse (layout : Layout) (value : List Char) : Option Time :=
  match parseLoop layout value {} with
  | none => none
  | some (f, rest) =>
    if rest.length ≠ 0 then none
    else
      let month := if f.month < 0 then 1 else f.month
      let day := if f.day < 0 then 1 else f.day
      if day < 1 || day > daysIn month f.year then none
      else some (Date f.year month day 0 0 0 0 Location.UTC)

/-- The decimal digits of `u`, most significant first, pushed in front of `acc`. -/
def digitsAux : Nat → Nat → List Char → List Char
  | 0, _, acc => acc
  | fuel + 1, u, acc =>
    let acc2 := Char.ofNat (48 + u % 10) :: acc
    if u / 10 = 0 then acc2 else digitsAux fuel (u / 10) acc2

/-- Go's `appendInt`: a minus sign for a negative `x`, then the decimal digits of its
absolute value padded with zeros on the left to `width` digits. -/
def appendInt (b : List Char) (x : Int) (width : Nat) : List Char :=
  let u := x.natAbs
  let ds := digitsAux (u + 1) u []
  b ++ (if x < 0 then ['-'] else []) ++ List.replicate (width - ds.length) '0' ++ ds

/-- Go's `Time.Format` for a layout made of year and month elements. -/
def Format (layout : Layout) (t : Time) : List Char :=
  layout.foldl
    (fun b chunk =>
      match chunk.2 with
      | Std.stdLongYear => appendInt (b ++ chunk.1) t.Year 4
      | Std.stdZeroMonth => appendInt (b ++ chunk.1) t.Month 2)
    []

end time

namespace date

/-- Source `date.ParseMonth`. -/
def ParseMonth (s : String) : Except String time.Time :=
  let s := strings.TrimSpace s.data
  match time.Parse time.layoutYearMonth s with
  | some t => Except.ok (time.Date t.Year t.Month 1 0 0 0 0 time.Location.UTC)
  | none =>
    match time.Parse time.layoutMonthYear s with
    | some t => Except.ok (time.Date t.Year t.Month 1 0 0 0 0 time.Location.UTC)
    | none => Except.error "invalid month format (want YYYY-MM or MM-YYYY)"

/-- Source `date.FormatMonth`. -/
def FormatMonth (t : time.Time) : String := String.mk (time.Format time.layoutYearMonth t)

end date


namespace strings

/-- The UTF-8 encoding of a code point: the bytes it occupies in a Go string. -/
def utf8Bytes (c : Char) : List Nat :=
  let n := c.toNat
  if n < 0x80 then [n]
  else if n < 0x800 then [0xC0 + n / 64, 0x80 + n % 64]
  else if n < 0x10000 then [0xE0 + n / 4096, 0x80 + n / 64 % 64, 0x80 + n % 64]
  else [0xF0 + n / 262144, 0x80 + n / 4096 % 64, 0x80 + n / 64 % 64, 0x80 + n % 64]

/-- The bytes of a Go string, which `len(s)` counts and `s[i]` indexes. -/
def bytes (s : String) : List Nat := s.data.flatMap utf8Bytes

end strings

namespace uuid

/-- The `UUID` of `github.com/google/uuid`: sixteen bytes. -/
structure UUID where
  bytes : List Nat
deriving DecidableEq, Repr

/-- The zero value of `UUID` (`uuid.Nil`). -/
def Nil : UUID := { bytes := List.replicate 16 0 }

/-- The value of the byte of a hexadecimal digit. -/
def xvalue (n : Nat) : Option Nat :=
  if 48 ≤ n ∧ n ≤ 57 then some (n - 48)
  else if 97 ≤ n ∧ n ≤ 102 then some (n - 87)
  else if 65 ≤ n ∧ n ≤ 70 then some (n - 55)
  else none

/-- The library's `xtob`: the byte that two hexadecimal digits denote. -/
def xtob (a b : Nat) : Option Nat :=
  match xvalue a, xvalue b with
  | some x, some y => some (x * 16 + y)
  | _, _ => none

/-- Reads consecutive pairs of hexadecimal digits. -/
def hexBytes : List Nat → Option (List Nat)
  | [] => some []
  | [_] => none
  | a :: b :: rest =>
    match xtob a b, hexBytes rest with
    | some v, some vs => some (v :: vs)
    | _, _ => none

/-- The canonical form `xxxxxxxx-xxxx-xxxx-xxxx-xxxxxxxxxxxx` at the start of the bytes `s`
(what follows the first 36 bytes is not looked at); 45 is the byte of the hyphen. -/
def parseCanonical (s : List Nat) : Option UUID :=
  if s.get? 8 ≠ some 45 ∨ s.get? 13 ≠ some 45 ∨ s.get? 18 ≠ some 45 ∨ s.get? 23 ≠ some 45
  then none
  else
    match hexBytes ((s.take 8) ++ ((s.drop 9).take 4) ++ ((s.drop 14).take 4) ++
        ((s.drop 19).take 4) ++ ((s.drop 24).take 12)) with
    | some bs => some { bytes := bs }
    | none => none

/-- The lower-case form of an ASCII byte; other bytes are left alone. -/
def asciiLower (b : Nat) : Nat := if 65 ≤ b ∧ b ≤ 90 then b + 32 else b

/-- The library's `uuid.Parse`, which switches on the length of the text in bytes: the
canonical form (36 bytes), the same after the prefix `urn:uuid:` in any case (45 bytes) or
between one leading and one trailing byte (38 bytes), or 32 hexadecimal digits. -/
def Parse (s : String) : Option UUID :=
  let bs := strings.bytes s
  if bs.length = 36 then parseCanonical bs
  else if bs.length = 45 then
    if (bs.take 9).map asciiLower ≠ strings.bytes "urn:uuid:" then none
    else parseCanonical (bs.drop 9)
  else if bs.length = 38 then parseCanonical (bs.drop 1)
  else if bs.length = 32 then
    match hexBytes bs with
    | some v => some { bytes := v }
    | none => none
  else none

/-- The lower-case hexadecimal digit of a value below sixteen. -/
def hexDigit (n : Nat) : Char := if n < 10 then Char.ofNat (48 + n) else Char.ofNat (87 + n)

/-- The two hexadecimal digits of each byte. -/
def encodeHex (bs : List Nat) : List Char :=
  bs.flatMap (fun b => [hexDigit (b / 16 % 16), hexDigit (b % 16)])

/-- The library's `UUID.String`: the canonical lower-case form. -/
def UUID.String (u : UUID) : String :=
  String.mk (encodeHex (u.bytes.take 4) ++ '-' :: encodeHex ((u.bytes.drop 4).take 2) ++
    '-' :: encodeHex ((u.bytes.drop 6).take 2) ++ '-' :: encodeHex ((u.bytes.drop 8).take 2) ++
    '-' :: encodeHex ((u.bytes.drop 10).take 6))

end uuid

namespace strconv

/-- Go's `strconv.Atoi` on a 64-bit platform: an optional sign, then at least one decimal
digit and nothing else; values outside the range of `int` are errors. -/
def Atoi (s : String) : Option Int :=
  let cs := s.data
  let neg : Bool := cs.head? = some '-'
  let ds : List Char := if cs.head? = some '-' ∨ cs.head? = some '+' then cs.drop 1 else cs
  if ds = [] then none
  else if ds.all (fun c => decide (48 ≤ c.toNat) && decide (c.toNat ≤ 57)) then
    let n : Nat := ds.foldl (fun acc c => acc * 10 + (c.toNat - 48)) 0
    let v : Int := if neg then -(n : Int) else (n : Int)
    if -(2 : Int) ^ 63 ≤ v ∧ v ≤ (2 : Int) ^ 63 - 1 then some v else none
  else none

end strconv

/-- A Go `error` value: the driver's `pgx.ErrNoRows`, any other error, or an error wrapping
another one. -/
inductive GoError where
  | ErrNoRows
  | other (msg : String)
  | wrap (msg : String) (inner : GoError)
deriving DecidableEq, Repr

/-- Go's `errors.Is(err, pgx.ErrNoRows)`: the error or one it wraps is `ErrNoRows`. -/
def GoError.isErrNoRows : GoError → Bool
  | GoError.ErrNoRows => true
  | GoError.other _ => false
  | GoError.wrap _ inner => inner.isErrNoRows

namespace subscription

/-- Source `subscription.Subscription`. -/
structure Subscription where
  ID : uuid.UUID
  ServiceName : String
  Price : Int
  UserID : uuid.UUID
  StartDate : time.Time
  EndDate : Option time.Time
  CreatedAt : time.Time
  UpdatedAt : time.Time
deriving DecidableEq, Repr

/-- Modelled from the spec: the declaration of `subscription.CreateRequest` is not among the
sources; the body is `{service_name, price, user_id, start_date, end_date?}` and the handlers
use these five fields, `EndDate` through a pointer. -/
structure CreateRequest where
  ServiceName : String
  Price : Int
  UserID : String
  StartDate : String
  EndDate : Option String
deriving DecidableEq, Repr

/-- Modelled from the spec: the declaration of `subscription.Response` is not among the
sources; single-entity responses are `{id, service_name, price, user_id, start_date,
end_date?}` and the handlers fill these six fields, `EndDate` through a pointer. -/
structure Response where
  ID : String
  ServiceName : String
  Price : Int
  UserID : String
  StartDate : String
  EndDate : Option String
deriving DecidableEq, Repr

end subscription

namespace repository

/-- Source `repository.ListFilter`. -/
structure ListFilter where
  UserID : Option uuid.UUID
  ServiceName : Option String
  Limit : Int
  Offset : Int
deriving DecidableEq, Repr

/-- Source `repository.SummaryFilter`. -/
structure SummaryFilter where
  Start : time.Time
  End : time.Time
  UserID : Option uuid.UUID
  ServiceName : Option String
deriving DecidableEq, Repr

/-- A value of the store's `date` type. -/
structure SqlDate where
  year : Int
  month : Int
  day : Int
deriving DecidableEq, Repr

/-- The order of the store on dates: `a <= b`. -/
def SqlDate.le (a b : SqlDate) : Bool :=
  decide (a.year < b.year) || (decide (a.year = b.year) &&
  (decide (a.month < b.month) || (decide (a.month = b.month) && decide (a.day ≤ b.day))))

/-- The date a `time.Time` argument is sent as for a `$n::date` parameter. -/
def toDate (t : time.Time) : SqlDate := { year := t.year, month := t.month, day := t.day }

/-- Modelled from the spec: the schema of the table `subscriptions` is not among the sources;
a row has the columns the statements of the gateway name, with `end_date` nullable. -/
structure Row where
  id : uuid.UUID
  service_name : String
  price : Int
  user_id : uuid.UUID
  start_date : SqlDate
  end_date : Option SqlDate
deriving DecidableEq, Repr

/-- The store's `date + interval '1 month'`: the same day of the next month, cut down to the
length of that month. -/
def addMonth (d : SqlDate) : SqlDate :=
  let y := if d.month = 12 then d.year + 1 else d.year
  let m := if d.month = 12 then 1 else d.month + 1
  { year := y, month := m, day := min d.day (time.daysIn m y) }

/-- The loop of `generate_series`: emits `cur` and steps while `cur <= stop`. -/
def generateSeriesAux : Nat → SqlDate → SqlDate → List SqlDate
  | 0, _, _ => []
  | fuel + 1, cur, stop =>
    if cur.le stop then cur :: generateSeriesAux fuel (addMonth cur) stop else []

/-- The store's `generate_series(start, stop, interval '1 month')::date`. The number of steps
is bounded by the number of months between the two dates. -/
def generate_series (start stop : SqlDate) : List SqlDate :=
  generateSeriesAux
    ((stop.year - start.year) * 12 + (stop.month - start.month) + 2).toNat start stop

/-- The `ON` condition of the join of `Summary`: the row is active in month `m`. -/
def joinCond (s : Row) (m : SqlDate) : Bool :=
  s.start_date.le m &&
    (match s.end_date with
     | none => true
     | some e => m.le e)

/-- The `WHERE` clause of `Summary`; `ilike` is the store's `ILIKE` operator. -/
def whereCond (ilike : String → String → Bool) (f : SummaryFilter) (s : Row) : Bool :=
  (match f.UserID with
   | none => true
   | some u => decide (s.user_id = u)) &&
  (match f.ServiceName with
   | none => true
   | some p => ilike s.service_name ("%" ++ p ++ "%"))

/-- The store's cast `::int` to a 32-bit integer, an error outside its range. -/
def castInt4 (v : Int) : Except GoError Int :=
  if -(2 : Int) ^ 31 ≤ v ∧ v ≤ (2 : Int) ^ 31 - 1 then Except.ok v
  else Except.error (GoError.other "integer out of range")

/-- Source `SubscriptionRepository.Summary`, the query run on the rows of the table: the
months of the series joined with the rows active in them, filtered, the prices summed
(`SUM` of no row is null, which `COALESCE` turns into 0) and the total cast to `int`. -/
def Summary (ilike : String → String → Bool) (rows : List Row) (f : SummaryFilter) :
    Except GoError Int :=
  let months := generate_series (toDate f.Start) (toDate f.End)
  let joined : List (SqlDate × Row) :=
    months.flatMap (fun m => (rows.filter (fun s => joinCond s m)).map (fun s => (m, s)))
  let selected := joined.filter (fun ms => whereCond ilike f ms.2)
  let sum : Option Int :=
    if selected.isEmpty then none else some ((selected.map (fun ms => ms.2.price)).sum)
  castInt4 (sum.getD 0)

end repository

namespace httpapi

open subscription repository

/-- Source `httpapi.SubscriptionRepo`: the gateway the handlers depend on. A handler makes at
most one call per request, so each method is the answer of the gateway to that call. -/
structure SubscriptionRepo where
  Create : Subscription → Except GoError uuid.UUID
  Get : uuid.UUID → Except GoError Subscription
  Update : Subscription → Option GoError
  Delete : uuid.UUID → Option GoError
  List : ListFilter → Except GoError (List Subscription)
  Summary : SummaryFilter → Except GoError Int

/-- A call made to the gateway, with its argument. -/
inductive RepoCall where
  | Create (s : Subscription)
  | Get (id : uuid.UUID)
  | Update (s : Subscription)
  | Delete (id : uuid.UUID)
  | List (f : ListFilter)
  | Summary (f : SummaryFilter)
deriving DecidableEq, Repr

/-- The JSON documents the handlers write. -/
inductive Body where
  | error (msg : String)
  | entity (r : Response)
  | status (s : String)
  | page (items : List Response) (limit offset : Int)
  | total (n : Int)
deriving DecidableEq, Repr

/-- What a handler did: the gateway calls it made and the response it wrote. -/
structure Reply where
  calls : List RepoCall
  code : Nat
  body : Body
deriving DecidableEq, Repr

/-- Source `writeJSON`, after the gateway calls `calls`. -/
def writeJSON (calls : List RepoCall) (code : Nat) (v : Body) : Reply :=
  { calls := calls, code := code, body := v }

/-- Source `writeError`. -/
def writeError (calls : List RepoCall) (code : Nat) (msg : String) : Reply :=
  writeJSON calls code (Body.error msg)

/-- The constant `http.StatusOK`. -/
def StatusOK : Nat := 200

/-- The constant `http.StatusCreated`. -/
def StatusCreated : Nat := 201

/-- The constant `http.StatusBadRequest`. -/
def StatusBadRequest : Nat := 400

/-- The constant `http.StatusNotFound`. -/
def StatusNotFound : Nat := 404

/-- The constant `http.StatusInternalServerError`. -/
def StatusInternalServerError : Nat := 500

/-- The zero value of `time.Time`. -/
def zeroTime : time.Time := time.Date 1 1 1 0 0 0 0 time.Location.UTC

/-- The mapping of an entity to the response shape that `Get` and `List` perform. -/
def toResponse (s : Subscription) : Response :=
  { ID := s.ID.String,
    ServiceName := s.ServiceName,
    Price := s.Price,
    UserID := s.UserID.String,
    StartDate := date.FormatMonth s.StartDate,
    EndDate := s.EndDate.map date.FormatMonth }

/-- The tail of `Create` once `endPtr` is known: builds the entity, calls the gateway and
writes the response. -/
def createEntity (repo : SubscriptionRepo) (req : CreateRequest) (userID : uuid.UUID)
    (start : time.Time) (endPtr : Option time.Time) : Reply :=
  let s : Subscription :=
    { ID := uuid.Nil, ServiceName := req.ServiceName, Price := req.Price, UserID := userID,
      StartDate := start, EndDate := endPtr, CreatedAt := zeroTime, UpdatedAt := zeroTime }
  match repo.Create s with
  | Except.error _ =>
    writeError [RepoCall.Create s] StatusInternalServerError "internal error"
  | Except.ok id =>
    writeJSON [RepoCall.Create s] StatusCreated
      (Body.entity
        { ID := id.String,
          ServiceName := s.ServiceName,
          Price := s.Price,
          UserID := s.UserID.String,
          StartDate := date.FormatMonth s.StartDate,
          EndDate := s.EndDate.map date.FormatMonth })

/-- Source `SubscriptionHandler.Create`; `body` is the decoded request, `none` when the JSON
decoder fails. -/
def Create (repo : SubscriptionRepo) (body : Option CreateRequest) : Reply :=
  match body with
  | none => writeError [] StatusBadRequest "invalid json"
  | some req =>
    if req.ServiceName = "" then writeError [] StatusBadRequest "service_name is required"
    else if req.Price < 0 then writeError [] StatusBadRequest "price must be >= 0"
    else
      match uuid.Parse req.UserID with
      | none => writeError [] StatusBadRequest "invalid user_id (uuid expected)"
      | some userID =>
        match date.ParseMonth req.StartDate with
        | Except.error _ =>
          writeError [] StatusBadRequest "invalid start_date (YYYY-MM or MM-YYYY)"
        | Except.ok start =>
          match req.EndDate with
          | none => createEntity repo req userID start none
          | some e =>
            if e = "" then createEntity repo req userID start none
            else
              match date.ParseMonth e with
              | Except.error _ =>
                writeError [] StatusBadRequest "invalid end_date (YYYY-MM or MM-YYYY)"
              | Except.ok en =>
                if en.Before start then
                  writeError [] StatusBadRequest "end_date must be >= start_date"
                else createEntity repo req userID start (some en)

/-- Source `SubscriptionHandler.Get`; `idStr` is the path parameter `id`. -/
def Get (repo : SubscriptionRepo) (idStr : String) : Reply :=
  match uuid.Parse idStr with
  | none => writeError [] StatusBadRequest "invalid id (uuid expected)"
  | some id =>
    match repo.Get id with
    | Except.error err =>
      if err.isErrNoRows then
        writeError [RepoCall.Get id] StatusNotFound "subscription not found"
      else writeError [RepoCall.Get id] StatusInternalServerError "internal error"
    | Except.ok s => writeJSON [RepoCall.Get id] StatusOK (Body.entity (toResponse s))

/-- The tail of `Update` once `endPtr` is known: builds the entity, calls the gateway and
writes the response. -/
def updateEntity (repo : SubscriptionRepo) (id : uuid.UUID) (req : CreateRequest)
    (userID : uuid.UUID) (start : time.Time) (endPtr : Option time.Time) : Reply :=
  let s : Subscription :=
    { ID := id, ServiceName := req.ServiceName, Price := req.Price, UserID := userID,
      StartDate := start, EndDate := endPtr, CreatedAt := zeroTime, UpdatedAt := zeroTime }
  match repo.Update s with
  | some _ => writeError [RepoCall.Update s] StatusInternalServerError "internal error"
  | none => writeJSON [RepoCall.Update s] StatusOK (Body.status "updated")

/-- Source `SubscriptionHandler.Update`; `idStr` is the path parameter `id` and `body` the
decoded request, `none` when the JSON decoder fails. -/
def Update (repo : SubscriptionRepo) (idStr : String) (body : Option CreateRequest) : Reply :=
  match uuid.Parse idStr with
  | none => writeError [] StatusBadRequest "invalid id (uuid expected)"
  | some id =>
    match body with
    | none => writeError [] StatusBadRequest "invalid json"
    | some req =>
      if req.ServiceName = "" then writeError [] StatusBadRequest "service_name is required"
      else if req.Price < 0 then writeError [] StatusBadRequest "price must be >= 0"
      else
        match uuid.Parse req.UserID with
        | none => writeError [] StatusBadRequest "invalid user_id (uuid expected)"
        | some userID =>
          match date.ParseMonth req.StartDate with
          | Except.error _ => writeError [] StatusBadRequest "invalid start_date"
          | Except.ok start =>
            match req.EndDate with
            | none => updateEntity repo id req userID start none
            | some e =>
              if e = "" then updateEntity repo id req userID start none
              else
                match date.ParseMonth e with
                | Except.error _ => writeError [] StatusBadRequest "invalid end_date"
                | Except.ok en =>
                  if en.Before start then
                    writeError [] StatusBadRequest "end_date must be >= start_date"
                  else updateEntity repo id req userID start (some en)

/-- The query of a request: `q.Get(key)`, the empty string for an absent parameter. -/
abbrev Values := String → String

/-- The effective limit `List` computes from the query parameter `limit`. -/
def effectiveLimit (v : String) : Int :=
  if v ≠ "" then
    match strconv.Atoi v with
    | some n => if n > 0 ∧ n ≤ 100 then n else 20
    | none => 20
  else 20

/-- The effective offset `List` computes from the query parameter `offset`. -/
def effectiveOffset (v : String) : Int :=
  if v ≠ "" then
    match strconv.Atoi v with
    | some n => if n ≥ 0 then n else 0
    | none => 0
  else 0

/-- The optional `service_name` filter that `List` and `Summary` read from the query. -/
def serviceNameParam (q : Values) : Option String :=
  if q "service_name" ≠ "" then some (q "service_name") else none

/-- The tail of `List` once the owner filter is known. -/
def listPage (repo : SubscriptionRepo) (q : Values) (userID : Option uuid.UUID) : Reply :=
  let limit := effectiveLimit (q "limit")
  let offset := effectiveOffset (q "offset")
  let f : ListFilter :=
    { UserID := userID, ServiceName := serviceNameParam q, Limit := limit, Offset := offset }
  match repo.List f with
  | Except.error _ => writeError [RepoCall.List f] StatusInternalServerError "internal error"
  | Except.ok items =>
    writeJSON [RepoCall.List f] StatusOK (Body.page (items.map toResponse) limit offset)

/-- Source `SubscriptionHandler.List`. -/
def List (repo : SubscriptionRepo) (q : Values) : Reply :=
  if q "user_id" ≠ "" then
    match uuid.Parse (q "user_id") with
    | none => writeError [] StatusBadRequest "invalid user_id"
    | some u => listPage repo q (some u)
  else listPage repo q none

/-- The tail of `Summary` once the owner filter is known. -/
def summaryTotal (repo : SubscriptionRepo) (q : Values) (start en : time.Time)
    (userID : Option uuid.UUID) : Reply :=
  let f : SummaryFilter :=
    { Start := start, End := en, UserID := userID, ServiceName := serviceNameParam q }
  match repo.Summary f with
  | Except.error _ =>
    writeError [RepoCall.Summary f] StatusInternalServerError "internal error"
  | Except.ok total => writeJSON [RepoCall.Summary f] StatusOK (Body.total total)

/-- Source `SubscriptionHandler.Summary`. -/
def Summary (repo : SubscriptionRepo) (q : Values) : Reply :=
  if q "start" = "" ∨ q "end" = "" then
    writeError [] StatusBadRequest "start and end are required (YYYY-MM or MM-YYYY)"
  else
    match date.ParseMonth (q "start") with
    | Except.error _ => writeError [] StatusBadRequest "invalid start"
    | Except.ok start =>
      match date.ParseMonth (q "end") with
      | Except.error _ => writeError [] StatusBadRequest "invalid end"
      | Except.ok en =>
        if en.Before start then writeError [] StatusBadRequest "end must be >= start"
        else if q "user_id" ≠ "" then
          match uuid.Parse (q "user_id") with
          | none => writeError [] StatusBadRequest "invalid user_id"
          | some u => summaryTotal repo q start en (some u)
        else summaryTotal repo q start en none

end httpapi

namespace Examples

/-- A gateway whose every call succeeds; `Create` answers a fixed identifier. -/
def repoOk : httpapi.SubscriptionRepo :=
  { Create := fun _ => Except.ok { bytes := List.replicate 16 1 },
    Get := fun _ => Except.error GoError.ErrNoRows,
    Update := fun _ => none,
    Delete := fun _ => none,
    List := fun _ => Except.ok [],
    Summary := fun _ => Except.ok 0 }

/-- A well-formed owner identifier. -/
def owner : String := "123e4567-e89b-12d3-a456-426614174000"

/-- The bytes of `owner`. -/
def ownerID : uuid.UUID :=
  { bytes := [18, 62, 69, 103, 232, 155, 18, 211, 164, 86, 66, 102, 20, 23, 64, 0] }

end Examples

namespace Examples

/-- A body whose only defect is its start_date. -/
def badStart : subscription.CreateRequest :=
  { ServiceName := "tv", Price := 5, UserID := owner, StartDate := "March 2024",
    EndDate := none }

end Examples

namespace Examples

/-- A query with the single parameter `key=value`. -/
def query1 (key value : String) : httpapi.Values := fun k => if k = key then value else ""

/-- A query with the two parameters `start` and `end`. -/
def range (start stop : String) : httpapi.Values :=
  fun k => if k = "start" then start else if k = "end" then stop else ""

end Examples

namespace Examples

/-- An `ILIKE` operator for queries without a name filter, which never consult it. -/
def noIlike : String → String → Bool := fun _ _ => false

/-- The range 2024-01..2024-03 without filters. -/
def firstQuarter : repository.SummaryFilter :=
  { Start := time.Date 2024 1 1 0 0 0 0 time.Location.UTC,
    End := time.Date 2024 3 1 0 0 0 0 time.Location.UTC, UserID := none, ServiceName := none }

/-- An open-ended subscription from 2024-02 at price 10. -/
def rowOpen : repository.Row :=
  { id := uuid.Nil, service_name := "tv", price := 10, user_id := ownerID,
    start_date := { year := 2024, month := 2, day := 1 }, end_date := none }

/-- A subscription from 2023-01 to 2024-12 at price 5. -/
def rowClosed : repository.Row :=
  { id := uuid.Nil, service_name := "music", price := 5, user_id := ownerID,
    start_date := { year := 2023, month := 1, day := 1 },
    end_date := some { year := 2024, month := 12, day := 1 } }

/-- The range 2024-01..2024-02 without filters. -/
def twoMonths : repository.SummaryFilter :=
  { Start := time.Date 2024 1 1 0 0 0 0 time.Location.UTC,
    End := time.Date 2024 2 1 0 0 0 0 time.Location.UTC, UserID := none, ServiceName := none }

/-- An open-ended subscription from 2024-01 at price 2000000000. -/
def rowCostly : repository.Row :=
  { id := uuid.Nil, service_name := "jet", price := 2000000000, user_id := ownerID,
    start_date := { year := 2024, month := 1, day := 1 }, end_date := none }

end Examples

namespace Examples

/-- A well-formed body with an end date in the layout MM-YYYY. -/
def goodBody : subscription.CreateRequest :=
  { ServiceName := "tv", Price := 7, UserID := owner, StartDate := "2024-03",
    EndDate := some "05-2024" }

/-- The entity Create builds from `goodBody`. -/
def goodEntity : subscription.Subscription :=
  { ID := uuid.Nil, ServiceName := "tv", Price := 7, UserID := ownerID,
    StartDate := time.Date 2024 3 1 0 0 0 0 time.Location.UTC,
    EndDate := some (time.Date 2024 5 1 0 0 0 0 time.Location.UTC),
    CreatedAt := httpapi.zeroTime, UpdatedAt := httpapi.zeroTime }

end Examples

namespace Examples

/-- A text of 38 code points but 39 bytes: a canonical identifier between a two-byte letter
and a one-byte letter. -/
def ownerWide : String := "é123e4567-e89b-12d3-a456-426614174000x"

/-- A gateway whose every call fails with an error other than the no-rows error. -/
def repoDown : httpapi.SubscriptionRepo :=
  { Create := fun _ => Except.error (GoError.other "connection refused"),
    Get := fun _ => Except.error (GoError.other "connection refused"),
    Update := fun _ => some (GoError.other "connection refused"),
    Delete := fun _ => some (GoError.other "connection refused"),
    List := fun _ => Except.error (GoError.other "connection refused"),
    Summary := fun _ => Except.error (GoError.other "connection refused") }

/-- A stored subscription as the gateway returns it. -/
def stored : subscription.Subscription :=
  { ID := ownerID, ServiceName := "tv", Price := 7, UserID := ownerID,
    StartDate := time.Date 2024 3 1 0 0 0 0 time.Location.UTC,
    EndDate := some (time.Date 2024 5 1 0 0 0 0 time.Location.UTC),
    CreatedAt := httpapi.zeroTime, UpdatedAt := httpapi.zeroTime }

/-- A gateway that holds the subscription `stored`. -/
def repoHolding : httpapi.SubscriptionRepo :=
  { Create := fun _ => Except.ok ownerID,
    Get := fun _ => Except.ok stored,
    Update := fun _ => none,
    Delete := fun _ => none,
    List := fun _ => Except.ok [stored],
    Summary := fun _ => Except.ok 0 }

end Examples

namespace Examples

/-- A query with the three parameters `start`, `end` and `user_id`. -/
def rangeOf (start stop user : String) : httpapi.Values :=
  fun k => if k = "start" then start else if k = "end" then stop
    else if k = "user_id" then user else ""

end Examples

namespace Examples

/-- A body whose only defect is its end_date. -/
def badEnd : subscription.CreateRequest :=
  { ServiceName := "tv", Price := 5, UserID := owner, StartDate := "2024-03",
    EndDate := some "May 2024" }

end Examples

namespace Spec

/-- An ASCII decimal digit. -/
def isDigitChar (c : Char) : Bool := decide (48 ≤ c.toNat) && decide (c.toNat ≤ 57)

/-- The value of an ASCII decimal digit. -/
def digitVal (c : Char) : Nat := c.toNat - 48

/-- The ASCII decimal digit of a value below ten. -/
def digitChar (d : Nat) : Char := Char.ofNat (48 + d)

/-- The number four digits denote. -/
def num4 (a b c d : Char) : Nat :=
  ((digitVal a * 10 + digitVal b) * 10 + digitVal c) * 10 + digitVal d

/-- The number two digits denote. -/
def num2 (e g : Char) : Nat := digitVal e * 10 + digitVal g

/-- The shape `YYYY-MM`: four digits, a hyphen, two digits forming a month 01..12. -/
def isYearMonth : List Char → Bool
  | [a, b, c, d, s, e, g] =>
    isDigitChar a && isDigitChar b && isDigitChar c && isDigitChar d && decide (s = '-') &&
    isDigitChar e && isDigitChar g && decide (1 ≤ num2 e g) && decide (num2 e g ≤ 12)
  | _ => false

/-- The shape `MM-YYYY`: two digits forming a month 01..12, a hyphen, four digits. -/
def isMonthYear : List Char → Bool
  | [e, g, s, a, b, c, d] =>
    isDigitChar e && isDigitChar g && decide (1 ≤ num2 e g) && decide (num2 e g ≤ 12) &&
    decide (s = '-') && isDigitChar a && isDigitChar b && isDigitChar c && isDigitChar d
  | _ => false

/-- The four zero-padded digits of a year below 10000. -/
def yearDigits (y : Nat) : List Char :=
  [digitChar (y / 1000), digitChar (y / 100 % 10), digitChar (y / 10 % 10), digitChar (y % 10)]

/-- The two zero-padded digits of a month. -/
def monthDigits (m : Nat) : List Char := [digitChar (m / 10), digitChar (m % 10)]

/-- The zero-padded text `YYYY-MM` of a year and a month. -/
def textYearMonth (y m : Nat) : String := String.mk (yearDigits y ++ '-' :: monthDigits m)

/-- The zero-padded text `MM-YYYY` of a year and a month. -/
def textMonthYear (y m : Nat) : String := String.mk (monthDigits m ++ '-' :: yearDigits y)

end Spec

namespace Spec

/-- The conditions under which Create accepts a body: service_name non-empty, price not
negative, user_id a UUID, start_date a month, and end_date absent, empty, or a month not
before start_date. -/
def createAccepts (req : subscription.CreateRequest) : Prop :=
  req.ServiceName ≠ "" ∧ 0 ≤ req.Price ∧ uuid.Parse req.UserID ≠ none ∧
  ∃ st, date.ParseMonth req.StartDate = Except.ok st ∧
    (req.EndDate = none ∨ req.EndDate = some "" ∨
      ∃ e en, req.EndDate = some e ∧ date.ParseMonth e = Except.ok en ∧ en.Before st = false)

/-- The entity Create hands to the gateway for an accepted body. -/
def createdEntity (req : subscription.CreateRequest) (userID : uuid.UUID) (start : time.Time)
    (endDate : Option time.Time) : subscription.Subscription :=
  { ID := uuid.Nil, ServiceName := req.ServiceName, Price := req.Price, UserID := userID,
    StartDate := start, EndDate := endDate, CreatedAt := httpapi.zeroTime,
    UpdatedAt := httpapi.zeroTime }

end Spec

namespace Spec

/-- The message Update writes where Create writes `msg`: the same text, except that the two
messages for an unparseable start_date or end_date come without the hint on the layouts. -/
def updateMessage (msg : String) : String :=
  if msg = "invalid start_date (YYYY-MM or MM-YYYY)" then "invalid start_date"
  else if msg = "invalid end_date (YYYY-MM or MM-YYYY)" then "invalid end_date"
  else msg

end Spec

namespace Spec

/-- The effective limit of the claim: the parsed integer when it lies in 1..100, else 20. -/
def limitOf (v : String) : Int :=
  match strconv.Atoi v with
  | some n => if 0 < n ∧ n ≤ 100 then n else 20
  | none => 20

/-- The effective offset of the claim: the parsed integer when it is not negative, else 0. -/
def offsetOf (v : String) : Int :=
  match strconv.Atoi v with
  | some n => if 0 ≤ n then n else 0
  | none => 0

end Spec

namespace Spec

/-- The conditions under which Summary queries the gateway: start and end present, both
months, end not before start, and user_id empty or a UUID. -/
def summaryAccepts (q : httpapi.Values) : Prop :=
  q "start" ≠ "" ∧ q "end" ≠ "" ∧
  ∃ st en, date.ParseMonth (q "start") = Except.ok st ∧
    date.ParseMonth (q "end") = Except.ok en ∧ en.Before st = false ∧
    (q "user_id" = "" ∨ uuid.Parse (q "user_id") ≠ none)

/-- A time normalized to day 1, 00:00:00.0, UTC. -/
def isMonthStart (t : time.Time) : Prop :=
  t.day = 1 ∧ t.hour = 0 ∧ t.min = 0 ∧ t.sec = 0 ∧ t.nsec = 0 ∧ t.loc = time.Location.UTC

end Spec

namespace Spec

open repository

/-- The number of a calendar month, counted from January of year 0. -/
def monthIndex (d : SqlDate) : Int := d.year * 12 + (d.month - 1)

/-- The first day of the calendar month with number `i`. -/
def monthStart (i : Int) : SqlDate := { year := i / 12, month := i % 12 + 1, day := 1 }

/-- A calendar month: a date normalized to the first day of a month. -/
def isCalendarMonth (d : SqlDate) : Prop := d.day = 1 ∧ 1 ≤ d.month ∧ d.month ≤ 12

/-- The calendar months of the inclusive range from month `a` to month `b`. -/
def monthsOfRange (a b : Int) : List SqlDate :=
  (List.range (b - a + 1).toNat).map (fun (k : Nat) => monthStart (a + (k : Int)))

/-- The subscription is active in month `m`: its start_date is not after `m` and its
end_date is absent or not before `m`. -/
def activeIn (s : Row) (m : SqlDate) : Bool :=
  s.start_date.le m && (s.end_date.all (fun e => m.le e))

/-- The subscription matches the optional owner and name filters. -/
def matchesFilter (ilike : String → String → Bool) (f : SummaryFilter) (s : Row) : Bool :=
  (f.UserID.all (fun u => decide (s.user_id = u))) &&
  (f.ServiceName.all (fun p => ilike s.service_name ("%" ++ p ++ "%")))

/-- The total of the claim: the sum, over each calendar month of the range and each matching
subscription active in that month, of the price. -/
def monthlyTotal (ilike : String → String → Bool) (rows : List Row) (f : SummaryFilter)
    (a b : Int) : Int :=
  ((monthsOfRange a b).map (fun m =>
    ((rows.filter (fun s => matchesFilter ilike f s && activeIn s m)).map
      (fun s => s.price)).sum)).sum

/-- A well-formed date of the store: a month 1..12 and a day from 1 on. -/
def isDate (d : SqlDate) : Prop := 1 ≤ d.month ∧ d.month ≤ 12 ∧ 1 ≤ d.day

/-- The first calendar month that begins on or after the date `d`. -/
def firstMonthFrom (d : SqlDate) : Int := if d.day ≤ 1 then monthIndex d else monthIndex d + 1

/-- The number of months in the intersection of the range `[a, b]` with the interval from
the start_date of the subscription to its end_date, or without bound when it has none. -/
def overlapMonths (a b : Int) (s : Row) : Int :=
  max 0 ((match s.end_date with
          | none => b
          | some e => min b (monthIndex e)) - max a (firstMonthFrom s.start_date) + 1)

/-- The total of the claim in its second form: each matching subscription contributes its
price times the number of months it overlaps the range. -/
def overlapTotal (ilike : String → String → Bool) (rows : List Row) (f : SummaryFilter)
    (a b : Int) : Int :=
  ((rows.filter (fun s => matchesFilter ilike f s)).map
    (fun s => s.price * overlapMonths a b s)).sum

/-- The dates of a stored subscription are well-formed. -/
def rowHasDates (s : Row) : Prop :=
  isDate s.start_date ∧ ∀ e, s.end_date = some e → isDate e

end Spec

namespace Spec

/-- A first-of-month instant: day 1 of a month 1..12 at 00:00:00.0 in UTC. -/
def isFirstOfMonth (t : time.Time) : Prop :=
  isMonthStart t ∧ 1 ≤ t.month ∧ t.month ≤ 12

/-- The data-model invariants of a subscription entity: the service name is not empty, the
price is not negative, the start date is a first-of-month instant, and the end date is
absent or a first-of-month instant that is not before the start date. -/
def entityInvariant (s : subscription.Subscription) : Prop :=
  s.ServiceName ≠ "" ∧ 0 ≤ s.Price ∧ isFirstOfMonth s.StartDate ∧
  ∀ e, s.EndDate = some e →
    isFirstOfMonth e ∧ e.Before s.StartDate = false ∧
      (s.StartDate.year < e.year ∨
        (s.StartDate.year = e.year ∧ s.StartDate.month ≤ e.month))

end Spec

/-! ## Lemmas on the month parser -/

namespace time

theorem digitChar_toNat (d : Nat) (h : d < 10) : (Spec.digitChar d).toNat = 48 + d := by
  interval_cases d <;> rfl

theorem isDigitChar_digitChar (d : Nat) (h : d < 10) :
    Spec.isDigitChar (Spec.digitChar d) = true := by
  simp [Spec.isDigitChar, digitChar_toNat d h]; omega

theorem digitVal_digitChar (d : Nat) (h : d < 10) : Spec.digitVal (Spec.digitChar d) = d := by
  simp [Spec.digitVal, digitChar_toNat d h]

theorem isDigitChar_bounds {c : Char} (h : Spec.isDigitChar c = true) :
    48 ≤ c.toNat ∧ c.toNat ≤ 57 := by
  simpa [Spec.isDigitChar] using h

theorem isDigitChar_not_sign {c : Char} (h : Spec.isDigitChar c = true) :
    c ≠ '-' ∧ c ≠ '+' := by
  have hb := isDigitChar_bounds h
  constructor
  · rintro rfl
    have : ('-' : Char).toNat = 45 := rfl
    omega
  · rintro rfl
    have : ('+' : Char).toNat = 43 := rfl
    omega

theorem leadingInt_digit (c : Char) (cs : List Char) (x : Nat)
    (hc : Spec.isDigitChar c = true) (hx : x < 100000) :
    leadingInt (c :: cs) x = leadingInt cs (x * 10 + Spec.digitVal c) := by
  have hb := isDigitChar_bounds hc
  have h1 : ¬ (c.toNat < 48 ∨ c.toNat > 57) := by omega
  simp only [leadingInt, Bool.or_eq_true, decide_eq_true_eq, h1, if_false, Spec.digitVal]
  rw [if_neg (by norm_num; omega), if_neg (by norm_num; omega)]

theorem leadingInt_nondigit (c : Char) (cs : List Char) (x : Nat)
    (hc : Spec.isDigitChar c = false) :
    leadingInt (c :: cs) x = some (x, c :: cs) := by
  simp only [Spec.isDigitChar, Bool.and_eq_false_iff, decide_eq_false_iff_not] at hc
  have h1 : (c.toNat < 48 ∨ c.toNat > 57) := by omega
  simp [leadingInt, h1]

theorem num4_lt (a b c d : Char) (ha : Spec.isDigitChar a = true)
    (hb : Spec.isDigitChar b = true) (hc : Spec.isDigitChar c = true)
    (hd : Spec.isDigitChar d = true) : Spec.num4 a b c d < 10000 := by
  have := isDigitChar_bounds ha
  have := isDigitChar_bounds hb
  have := isDigitChar_bounds hc
  have := isDigitChar_bounds hd
  simp only [Spec.num4, Spec.digitVal]
  omega

/-- The value `atoi` reads from four characters the first of which is a digit. -/
theorem atoi_four (a b c d : Char) (ha : Spec.isDigitChar a = true) :
    atoi [a, b, c, d] =
      if Spec.isDigitChar b && Spec.isDigitChar c && Spec.isDigitChar d
      then some ((Spec.num4 a b c d : Nat) : Int) else none := by
  obtain ⟨h1, h2⟩ := isDigitChar_not_sign ha
  have hba := isDigitChar_bounds ha
  simp only [atoi, h1, h2, decide_False, Bool.or_self, Bool.false_eq_true, if_false]
  rw [leadingInt_digit a _ 0 ha (by omega)]
  cases hb : Spec.isDigitChar b
  · rw [leadingInt_nondigit b _ _ hb]; simp
  have hbb := isDigitChar_bounds hb
  rw [leadingInt_digit b _ _ hb (by simp only [Spec.digitVal]; omega)]
  cases hc : Spec.isDigitChar c
  · rw [leadingInt_nondigit c _ _ hc]; simp
  have hbc := isDigitChar_bounds hc
  rw [leadingInt_digit c _ _ hc (by simp only [Spec.digitVal]; omega)]
  cases hd : Spec.isDigitChar d
  · rw [leadingInt_nondigit d _ _ hd]; simp
  have hbd := isDigitChar_bounds hd
  rw [leadingInt_digit d _ _ hd (by simp only [Spec.digitVal]; omega)]
  have hlt := num4_lt a b c d ha hb hc hd
  simp only [Spec.num4] at hlt
  simp only [leadingInt, List.length_nil, gt_iff_lt, lt_self_iff_false, if_false, Spec.num4,
    Bool.and_self, if_true, zero_mul, zero_add, Bool.false_eq_true]
  rw [if_pos (by norm_num; omega)]

end time

namespace time

theorem parseStd_year_short (v : List Char) (f : Fields) (h : v.length < 4) :
    parseStd Std.stdLongYear v f = none := by
  simp [parseStd, h]

theorem parseStd_year_cons (a b c d : Char) (rest : List Char) (f : Fields) :
    parseStd Std.stdLongYear (a :: b :: c :: d :: rest) f =
      if Spec.isDigitChar a && Spec.isDigitChar b && Spec.isDigitChar c && Spec.isDigitChar d
      then some ({ f with year := ((Spec.num4 a b c d : Nat) : Int) }, rest) else none := by
  cases ha : Spec.isDigitChar a
  · have : isDigit (a :: b :: c :: d :: rest) 0 = false := by
      simpa [isDigit, Spec.isDigitChar] using ha
    simp [parseStd, this]
  · have h0 : isDigit (a :: b :: c :: d :: rest) 0 = true := by
      simpa [isDigit, Spec.isDigitChar] using ha
    simp only [parseStd, List.length_cons, h0, List.take_succ_cons, List.take_zero,
      List.drop_succ_cons, List.drop_zero, atoi_four a b c d ha]
    by_cases h : (Spec.isDigitChar b && Spec.isDigitChar c && Spec.isDigitChar d) = true
    · simp [h]
    · simp [h]

theorem parseStd_month_nil (f : Fields) : parseStd Std.stdZeroMonth [] f = none := by
  simp [parseStd, getnum, isDigit]

theorem parseStd_month_single (e : Char) (f : Fields) :
    parseStd Std.stdZeroMonth [e] f = none := by
  simp [parseStd, getnum, isDigit]

theorem parseStd_month_cons (e g : Char) (rest : List Char) (f : Fields) :
    parseStd Std.stdZeroMonth (e :: g :: rest) f =
      if Spec.isDigitChar e && Spec.isDigitChar g && decide (1 ≤ Spec.num2 e g) &&
          decide (Spec.num2 e g ≤ 12)
      then some ({ f with month := ((Spec.num2 e g : Nat) : Int) }, rest) else none := by
  have h0 : isDigit (e :: g :: rest) 0 = Spec.isDigitChar e := by
    simp [isDigit, Spec.isDigitChar]
  have h1 : isDigit (e :: g :: rest) 1 = Spec.isDigitChar g := by
    simp [isDigit, Spec.isDigitChar]
  simp only [parseStd, getnum, h0, h1]
  cases he : Spec.isDigitChar e
  · simp
  cases hg : Spec.isDigitChar g
  · simp
  simp only [Spec.num2, Spec.digitVal]
  by_cases hm : 1 ≤ (e.toNat - 48) * 10 + (g.toNat - 48) ∧ (e.toNat - 48) * 10 + (g.toNat - 48) ≤ 12
  · have h2 : ¬ (((((e.toNat - 48) * 10 + (g.toNat - 48) : Nat) : Int) ≤ 0) ∨
        ((12 : Int) < (((e.toNat - 48) * 10 + (g.toNat - 48) : Nat) : Int))) := by omega
    simp [hm.1, hm.2]
    omega
  · have h2 : (((((e.toNat - 48) * 10 + (g.toNat - 48) : Nat) : Int) ≤ 0) ∨
        ((12 : Int) < (((e.toNat - 48) * 10 + (g.toNat - 48) : Nat) : Int))) := by omega
    have h3 : ¬ (1 ≤ (e.toNat - 48) * 10 + (g.toNat - 48)) ∨
        ¬ ((e.toNat - 48) * 10 + (g.toNat - 48) ≤ 12) := by omega
    rcases h3 with h3 | h3 <;> simp [h3] <;> omega

end time

namespace time

theorem daysIn_ge (m y : Int) : 28 ≤ daysIn m y := by
  unfold daysIn
  split_ifs <;> omega

theorem one_le_daysIn (m y : Int) : 1 ≤ daysIn m y := by
  have := daysIn_ge m y
  omega

/-- The result of `Parse` with the layout `2006-01` on a text of seven characters. -/
theorem Parse_yearMonth_seven (a b c d s e g : Char) :
    Parse layoutYearMonth [a, b, c, d, s, e, g] =
      if Spec.isYearMonth [a, b, c, d, s, e, g]
      then some (Date (Spec.num4 a b c d : Nat) (Spec.num2 e g : Nat) 1 0 0 0 0 Location.UTC)
      else none := by
  simp only [Parse, layoutYearMonth, parseLoop, skip, Spec.isYearMonth]
  rw [parseStd_year_cons]
  by_cases hy : (Spec.isDigitChar a && Spec.isDigitChar b && Spec.isDigitChar c &&
    Spec.isDigitChar d) = true
  · by_cases hs : s = '-'
    · by_cases hm : (Spec.isDigitChar e && Spec.isDigitChar g && decide (1 ≤ Spec.num2 e g) &&
        decide (Spec.num2 e g ≤ 12)) = true
      · have hm2 := hm
        simp only [Bool.and_eq_true, decide_eq_true_eq] at hm2
        have hneg : ¬ (((Spec.num2 e g : Nat) : Int) < 0) := by omega
        simp [skip, parseStd_month_cons, hy, hs, hm, one_le_daysIn, hneg]
      · simp [skip, parseStd_month_cons, hy, hs, hm]
    · simp [skip, hy, hs]
  · simp [hy]

theorem Parse_yearMonth_isSome (v : List Char) :
    (Parse layoutYearMonth v).isSome = Spec.isYearMonth v := by
  rcases v with _ | ⟨a, _ | ⟨b, _ | ⟨c, _ | ⟨d, _ | ⟨s, _ | ⟨e, _ | ⟨g, _ | ⟨x, rest⟩⟩⟩⟩⟩⟩⟩⟩
  case cons.cons.cons.cons.cons.cons.cons.nil =>
    rw [Parse_yearMonth_seven]
    split_ifs with h <;> simp [h]
  all_goals simp only [Parse, layoutYearMonth, parseLoop, skip, Spec.isYearMonth]
  · simp [parseStd_year_short]
  · simp [parseStd_year_short]
  · simp [parseStd_year_short]
  · simp [parseStd_year_short]
  · rw [parseStd_year_cons]
    split_ifs <;> simp [skip]
  · rw [parseStd_year_cons]
    split_ifs <;> simp [skip, parseStd_month_nil]
    split_ifs <;> simp [skip, parseStd_month_nil]
  · rw [parseStd_year_cons]
    split_ifs <;> simp [skip, parseStd_month_single]
    split_ifs <;> simp [skip, parseStd_month_single]
  · rw [parseStd_year_cons]
    by_cases hy : (Spec.isDigitChar a && Spec.isDigitChar b && Spec.isDigitChar c &&
      Spec.isDigitChar d) = true
    · by_cases hs : s = '-'
      · by_cases hm : (Spec.isDigitChar e && Spec.isDigitChar g && decide (1 ≤ Spec.num2 e g) &&
          decide (Spec.num2 e g ≤ 12)) = true
        · simp [skip, parseStd_month_cons, hy, hs, hm]
        · simp [skip, parseStd_month_cons, hy, hs, hm]
      · simp [skip, hy, hs]
    · simp [hy]

/-- The result of `Parse` with the layout `01-2006` on a text of seven characters. -/
theorem Parse_monthYear_seven (e g s a b c d : Char) :
    Parse layoutMonthYear [e, g, s, a, b, c, d] =
      if Spec.isMonthYear [e, g, s, a, b, c, d]
      then some (Date (Spec.num4 a b c d : Nat) (Spec.num2 e g : Nat) 1 0 0 0 0 Location.UTC)
      else none := by
  simp only [Parse, layoutMonthYear, parseLoop, skip, Spec.isMonthYear]
  rw [parseStd_month_cons]
  by_cases hm : (Spec.isDigitChar e && Spec.isDigitChar g && decide (1 ≤ Spec.num2 e g) &&
      decide (Spec.num2 e g ≤ 12)) = true
  · by_cases hs : s = '-'
    · by_cases hy : (Spec.isDigitChar a && Spec.isDigitChar b && Spec.isDigitChar c &&
        Spec.isDigitChar d) = true
      · have hm2 := hm
        simp only [Bool.and_eq_true, decide_eq_true_eq] at hm2
        have hneg : ¬ (((Spec.num2 e g : Nat) : Int) < 0) := by omega
        simp [skip, parseStd_year_cons, hy, hs, hm, one_le_daysIn, hneg]
      · simp [skip, parseStd_year_cons, hy, hs, hm]
    · simp [skip, hm, hs]
  · simp [hm]

theorem Parse_monthYear_isSome (v : List Char) :
    (Parse layoutMonthYear v).isSome = Spec.isMonthYear v := by
  rcases v with _ | ⟨e, _ | ⟨g, _ | ⟨s, _ | ⟨a, _ | ⟨b, _ | ⟨c, _ | ⟨d, _ | ⟨x, rest⟩⟩⟩⟩⟩⟩⟩⟩
  case cons.cons.cons.cons.cons.cons.cons.nil =>
    rw [Parse_monthYear_seven]
    split_ifs with h <;> simp [h]
  all_goals simp only [Parse, layoutMonthYear, parseLoop, skip, Spec.isMonthYear]
  · simp [parseStd_month_nil]
  · simp [parseStd_month_single]
  all_goals rw [parseStd_month_cons]
  all_goals split_ifs <;> simp [skip]
  all_goals split_ifs <;> simp [parseStd_year_short, parseStd_year_cons]
  split_ifs <;> simp

end time

namespace time

theorem digitsAux_lt_ten (fuel d : Nat) (acc : List Char) (h : d < 10) :
    digitsAux (fuel + 1) d acc = Spec.digitChar d :: acc := by
  have h1 : d / 10 = 0 := by omega
  have h2 : d % 10 = d := by omega
  simp [digitsAux, h1, h2, Spec.digitChar]

theorem digitsAux_step (fuel u : Nat) (acc : List Char) (h : 10 ≤ u) :
    digitsAux (fuel + 1) u acc = digitsAux fuel (u / 10) (Spec.digitChar (u % 10) :: acc) := by
  have h1 : ¬ (u / 10 = 0) := by omega
  simp [digitsAux, h1, Spec.digitChar]

theorem pad_year (k u : Nat) (hu : u < 10000) :
    List.replicate (4 - (digitsAux (k + 4) u []).length) '0' ++ digitsAux (k + 4) u [] =
      Spec.yearDigits u := by
  have hz : Spec.digitChar 0 = '0' := rfl
  by_cases h1 : u < 10
  · rw [digitsAux_lt_ten _ _ _ h1]
    have e1 : u / 1000 = 0 := by omega
    have e2 : u / 100 % 10 = 0 := by omega
    have e3 : u / 10 % 10 = 0 := by omega
    have e4 : u % 10 = u := by omega
    simp [Spec.yearDigits, e1, e2, e3, e4, hz, List.replicate]
  rw [digitsAux_step _ _ _ (by omega)]
  by_cases h2 : u < 100
  · rw [digitsAux_lt_ten _ _ _ (by omega)]
    have e1 : u / 1000 = 0 := by omega
    have e2 : u / 100 % 10 = 0 := by omega
    have e3 : u / 10 % 10 = u / 10 := by omega
    simp [Spec.yearDigits, e1, e2, e3, hz, List.replicate]
  rw [digitsAux_step _ _ _ (by omega)]
  by_cases h3 : u < 1000
  · rw [digitsAux_lt_ten _ _ _ (by omega)]
    have e1 : u / 1000 = 0 := by omega
    have e2 : u / 100 % 10 = u / 10 / 10 := by omega
    simp [Spec.yearDigits, e1, e2, hz, List.replicate]
  rw [digitsAux_step _ _ _ (by omega)]
  rw [digitsAux_lt_ten _ _ _ (by omega)]
  have e1 : u / 1000 = u / 10 / 10 / 10 := by omega
  have e2 : u / 100 % 10 = u / 10 / 10 % 10 := by omega
  simp [Spec.yearDigits, e1, e2, List.replicate]

theorem pad_month (k u : Nat) (hu : u < 100) :
    List.replicate (2 - (digitsAux (k + 2) u []).length) '0' ++ digitsAux (k + 2) u [] =
      Spec.monthDigits u := by
  have hz : Spec.digitChar 0 = '0' := rfl
  by_cases h1 : u < 10
  · rw [digitsAux_lt_ten _ _ _ h1]
    have e1 : u / 10 = 0 := by omega
    have e4 : u % 10 = u := by omega
    simp [Spec.monthDigits, e1, e4, hz, List.replicate]
  rw [digitsAux_step _ _ _ (by omega)]
  rw [digitsAux_lt_ten _ _ _ (by omega)]
  simp [Spec.monthDigits, List.replicate]

/-- The text `appendInt` produces for a year below 10000 with width four. -/
theorem appendInt_year (b : List Char) (y : Nat) (h : y < 10000) :
    appendInt b (y : Int) 4 = b ++ Spec.yearDigits y := by
  have hneg : ¬ ((y : Int) < 0) := by omega
  simp only [appendInt, Int.natAbs_ofNat, hneg, if_false, List.append_nil, List.append_assoc]
  congr 1
  by_cases h3 : 3 ≤ y
  · obtain ⟨k, rfl⟩ : ∃ k, y = k + 3 := ⟨y - 3, by omega⟩
    exact pad_year k (k + 3) h
  · interval_cases y <;> rfl

/-- The text `appendInt` produces for a month 1..12 with width two. -/
theorem appendInt_month (b : List Char) (m : Nat) (h1 : 1 ≤ m) (h : m ≤ 12) :
    appendInt b (m : Int) 2 = b ++ Spec.monthDigits m := by
  have hneg : ¬ ((m : Int) < 0) := by omega
  simp only [appendInt, Int.natAbs_ofNat, hneg, if_false, List.append_nil, List.append_assoc]
  congr 1
  obtain ⟨k, rfl⟩ : ∃ k, m = k + 1 := ⟨m - 1, by omega⟩
  exact pad_month k (k + 1) (by omega)

/-- The text `Format` produces with the layout `2006-01`. -/
theorem Format_yearMonth (y m : Nat) (hy : y < 10000) (h1 : 1 ≤ m) (h12 : m ≤ 12)
    (d h mi s n : Int) (l : Location) :
    Format layoutYearMonth (Date y m d h mi s n l) = Spec.yearDigits y ++ '-' :: Spec.monthDigits m := by
  simp only [Format, layoutYearMonth, List.foldl, Time.Year, Time.Month, Date, List.append_nil]
  rw [appendInt_year _ _ hy, appendInt_month _ _ h1 h12]
  simp

end time

namespace date

theorem TrimSpace_noop (c d : Char) (mid : List Char) (hc : strings.isSpace c = false)
    (hd : strings.isSpace d = false) :
    strings.TrimSpace (c :: (mid ++ [d])) = c :: (mid ++ [d]) := by
  simp [strings.TrimSpace, List.dropWhile, hc, hd]

theorem isSpace_digitChar (d : Nat) (h : d < 10) : strings.isSpace (Spec.digitChar d) = false := by
  interval_cases d <;> rfl

theorem TrimSpace_textYearMonth (y m : Nat) (hy : y < 10000) :
    strings.TrimSpace (Spec.textYearMonth y m).data = (Spec.textYearMonth y m).data := by
  have h := TrimSpace_noop (Spec.digitChar (y / 1000)) (Spec.digitChar (m % 10))
    [Spec.digitChar (y / 100 % 10), Spec.digitChar (y / 10 % 10), Spec.digitChar (y % 10), '-',
      Spec.digitChar (m / 10)]
    (isSpace_digitChar _ (by omega)) (isSpace_digitChar _ (by omega))
  simpa [Spec.textYearMonth, Spec.yearDigits, Spec.monthDigits] using h

theorem TrimSpace_textMonthYear (y m : Nat) (hm : m ≤ 12) :
    strings.TrimSpace (Spec.textMonthYear y m).data = (Spec.textMonthYear y m).data := by
  have h := TrimSpace_noop (Spec.digitChar (m / 10)) (Spec.digitChar (y % 10))
    [Spec.digitChar (m % 10), '-', Spec.digitChar (y / 1000), Spec.digitChar (y / 100 % 10),
      Spec.digitChar (y / 10 % 10)]
    (isSpace_digitChar _ (by omega)) (isSpace_digitChar _ (by omega))
  simpa [Spec.textMonthYear, Spec.yearDigits, Spec.monthDigits] using h

theorem num4_yearDigits (y : Nat) (hy : y < 10000) :
    Spec.num4 (Spec.digitChar (y / 1000)) (Spec.digitChar (y / 100 % 10))
      (Spec.digitChar (y / 10 % 10)) (Spec.digitChar (y % 10)) = y := by
  simp only [Spec.num4]
  rw [time.digitVal_digitChar _ (by omega), time.digitVal_digitChar _ (by omega),
    time.digitVal_digitChar _ (by omega), time.digitVal_digitChar _ (by omega)]
  omega

theorem num2_monthDigits (m : Nat) (hm : m ≤ 12) :
    Spec.num2 (Spec.digitChar (m / 10)) (Spec.digitChar (m % 10)) = m := by
  simp only [Spec.num2]
  rw [time.digitVal_digitChar _ (by omega), time.digitVal_digitChar _ (by omega)]
  omega

theorem isDigitChar_hyphen : Spec.isDigitChar '-' = false := by rfl

theorem isYearMonth_text (y m : Nat) (hy : y < 10000) (hm1 : 1 ≤ m) (hm : m ≤ 12) :
    Spec.isYearMonth (Spec.textYearMonth y m).data = true := by
  simp only [Spec.textYearMonth, Spec.yearDigits, Spec.monthDigits, List.cons_append,
    List.nil_append, Spec.isYearMonth, num2_monthDigits m hm]
  rw [time.isDigitChar_digitChar _ (by omega), time.isDigitChar_digitChar _ (by omega),
    time.isDigitChar_digitChar _ (by omega), time.isDigitChar_digitChar _ (by omega),
    time.isDigitChar_digitChar _ (by omega), time.isDigitChar_digitChar _ (by omega)]
  simp [hm1, hm]

theorem isMonthYear_text (y m : Nat) (hy : y < 10000) (hm1 : 1 ≤ m) (hm : m ≤ 12) :
    Spec.isMonthYear (Spec.textMonthYear y m).data = true := by
  simp only [Spec.textMonthYear, Spec.yearDigits, Spec.monthDigits, List.cons_append,
    List.nil_append, Spec.isMonthYear, num2_monthDigits m hm]
  rw [time.isDigitChar_digitChar _ (by omega), time.isDigitChar_digitChar _ (by omega),
    time.isDigitChar_digitChar _ (by omega), time.isDigitChar_digitChar _ (by omega),
    time.isDigitChar_digitChar _ (by omega), time.isDigitChar_digitChar _ (by omega)]
  simp [hm1, hm]

theorem isYearMonth_of_monthYear_text (y m : Nat) :
    Spec.isYearMonth (Spec.textMonthYear y m).data = false := by
  simp [Spec.textMonthYear, Spec.yearDigits, Spec.monthDigits, Spec.isYearMonth,
    isDigitChar_hyphen]

/-- What `ParseMonth` returns on the text `YYYY-MM`. -/
theorem ParseMonth_textYearMonth (y m : Nat) (hy : y < 10000) (hm1 : 1 ≤ m) (hm : m ≤ 12) :
    ParseMonth (Spec.textYearMonth y m) =
      Except.ok (time.Date y m 1 0 0 0 0 time.Location.UTC) := by
  have ht := TrimSpace_textYearMonth y m hy
  have hshape := isYearMonth_text y m hy hm1 hm
  simp only [ParseMonth, ht]
  simp only [Spec.textYearMonth, Spec.yearDigits, Spec.monthDigits, List.cons_append,
    List.nil_append] at hshape ⊢
  rw [time.Parse_yearMonth_seven, if_pos hshape]
  simp [time.Time.Year, time.Time.Month, time.Date, num4_yearDigits y hy, num2_monthDigits m hm]

/-- What `ParseMonth` returns on the text `MM-YYYY`. -/
theorem ParseMonth_textMonthYear (y m : Nat) (hy : y < 10000) (hm1 : 1 ≤ m) (hm : m ≤ 12) :
    ParseMonth (Spec.textMonthYear y m) =
      Except.ok (time.Date y m 1 0 0 0 0 time.Location.UTC) := by
  have ht := TrimSpace_textMonthYear y m hm
  have hshape := isMonthYear_text y m hy hm1 hm
  have hno := isYearMonth_of_monthYear_text y m
  simp only [ParseMonth, ht]
  simp only [Spec.textMonthYear, Spec.yearDigits, Spec.monthDigits, List.cons_append,
    List.nil_append] at hshape hno ⊢
  rw [time.Parse_yearMonth_seven, if_neg (by simp [hno]), time.Parse_monthYear_seven,
    if_pos hshape]
  simp [time.Time.Year, time.Time.Month, time.Date, num4_yearDigits y hy, num2_monthDigits m hm]

theorem FormatMonth_Date (y m : Nat) (hy : y < 10000) (hm1 : 1 ≤ m) (hm : m ≤ 12) :
    FormatMonth (time.Date y m 1 0 0 0 0 time.Location.UTC) = Spec.textYearMonth y m := by
  simp [FormatMonth, time.Format_yearMonth y m hy hm1 hm, Spec.textYearMonth]

/-- C1: for every year 0000..9999 and month 01..12, ParseMonth succeeds on the zero-padded
text YYYY-MM and on the zero-padded text MM-YYYY, and FormatMonth of the result is exactly
the YYYY-MM text of the same year and month. -/
theorem C1_format_parse_roundtrip (y m : Nat) (hy : y < 10000) (hm1 : 1 ≤ m) (hm : m ≤ 12)
    (s : String) (hs : s = Spec.textYearMonth y m ∨ s = Spec.textMonthYear y m) :
    ∃ t, ParseMonth s = Except.ok t ∧ FormatMonth t = Spec.textYearMonth y m := by
  refine ⟨time.Date y m 1 0 0 0 0 time.Location.UTC, ?_, FormatMonth_Date y m hy hm1 hm⟩
  rcases hs with rfl | rfl
  · exact ParseMonth_textYearMonth y m hy hm1 hm
  · exact ParseMonth_textMonthYear y m hy hm1 hm

theorem C1_format_parse_roundtrip_witness :
    Spec.textMonthYear 2024 7 = "07-2024" ∧
    ∃ t, ParseMonth "07-2024" = Except.ok t ∧ FormatMonth t = "2024-07" :=
  ⟨by decide, C1_format_parse_roundtrip 2024 7 (by decide) (by decide) (by decide) "07-2024"
    (Or.inr (by decide))⟩

/-- When the trimmed text has neither shape, both attempts of `ParseMonth` fail. -/
theorem ParseMonth_error_iff (s : String) :
    ParseMonth s = Except.error "invalid month format (want YYYY-MM or MM-YYYY)" ↔
      (Spec.isYearMonth (strings.TrimSpace s.data) = false ∧
        Spec.isMonthYear (strings.TrimSpace s.data) = false) := by
  have h1 := time.Parse_yearMonth_isSome (strings.TrimSpace s.data)
  have h2 := time.Parse_monthYear_isSome (strings.TrimSpace s.data)
  simp only [ParseMonth]
  cases hp1 : time.Parse time.layoutYearMonth (strings.TrimSpace s.data) with
  | some t =>
    rw [hp1] at h1
    simp at h1
    simp [← h1]
  | none =>
    rw [hp1] at h1
    simp at h1
    cases hp2 : time.Parse time.layoutMonthYear (strings.TrimSpace s.data) with
    | some t =>
      rw [hp2] at h2
      simp at h2
      simp [← h2]
    | none =>
      rw [hp2] at h2
      simp at h2
      simp [h1, h2]

/-- C2: ParseMonth accepts exactly the two layouts. It returns its error exactly when the
text with surrounding white space trimmed is neither four digits, a hyphen and two digits
forming a month 01..12, nor two digits forming a month 01..12, a hyphen and four digits;
the listed malformed texts all fail. -/
theorem C2_parse_rejects_other_shapes :
    (∀ s : String,
      (Spec.isYearMonth (strings.TrimSpace s.data) = false ∧
        Spec.isMonthYear (strings.TrimSpace s.data) = false) ↔
      ParseMonth s = Except.error "invalid month format (want YYYY-MM or MM-YYYY)") ∧
    ParseMonth "2024-1" = Except.error "invalid month format (want YYYY-MM or MM-YYYY)" ∧
    ParseMonth "2024-13" = Except.error "invalid month format (want YYYY-MM or MM-YYYY)" ∧
    ParseMonth "2024-00" = Except.error "invalid month format (want YYYY-MM or MM-YYYY)" ∧
    ParseMonth "24-01" = Except.error "invalid month format (want YYYY-MM or MM-YYYY)" ∧
    ParseMonth "2024/01" = Except.error "invalid month format (want YYYY-MM or MM-YYYY)" ∧
    ParseMonth "2024-01-15" = Except.error "invalid month format (want YYYY-MM or MM-YYYY)" ∧
    ParseMonth "" = Except.error "invalid month format (want YYYY-MM or MM-YYYY)" := by
  refine ⟨fun s => (ParseMonth_error_iff s).symm, ?_, ?_, ?_, ?_, ?_, ?_, ?_⟩ <;> rfl

/-- C3: for every year 0000..9999 and month 01..12, ParseMonth of the YYYY-MM text and
ParseMonth of the MM-YYYY text return the same value, the instant of day 1 at 00:00:00.0
UTC of that year and month; in particular both texts of January 2024 give
2024-01-01T00:00:00Z. -/
theorem C3_both_layouts_same_instant :
    (∀ y m : Nat, y < 10000 → 1 ≤ m → m ≤ 12 →
      ParseMonth (Spec.textYearMonth y m) =
        Except.ok (time.Date y m 1 0 0 0 0 time.Location.UTC) ∧
      ParseMonth (Spec.textMonthYear y m) = ParseMonth (Spec.textYearMonth y m)) ∧
    ParseMonth "2024-01" = Except.ok (time.Date 2024 1 1 0 0 0 0 time.Location.UTC) ∧
    ParseMonth "01-2024" = Except.ok (time.Date 2024 1 1 0 0 0 0 time.Location.UTC) := by
  refine ⟨fun y m hy hm1 hm => ⟨ParseMonth_textYearMonth y m hy hm1 hm, ?_⟩, rfl, rfl⟩
  rw [ParseMonth_textMonthYear y m hy hm1 hm, ParseMonth_textYearMonth y m hy hm1 hm]

theorem C3_both_layouts_same_instant_witness :
    ParseMonth (Spec.textYearMonth 1999 12) =
        Except.ok (time.Date 1999 12 1 0 0 0 0 time.Location.UTC) ∧
      ParseMonth (Spec.textMonthYear 1999 12) = ParseMonth (Spec.textYearMonth 1999 12) :=
  C3_both_layouts_same_instant.1 1999 12 (by decide) (by decide) (by decide)

end date

/-! ## The request handlers -/

namespace Claims

open subscription repository httpapi

/-- C4: in Create, the first violated field in the order service_name, price, user_id,
start_date, end_date decides the response: a single 400 error with the message of that
field and no gateway call, whatever the later fields hold. -/
theorem C4_first_failing_check_wins (repo : SubscriptionRepo) (req : CreateRequest) :
    (req.ServiceName = "" →
      Create repo (some req) =
        { calls := [], code := 400, body := Body.error "service_name is required" }) ∧
    (req.ServiceName ≠ "" → req.Price < 0 →
      Create repo (some req) =
        { calls := [], code := 400, body := Body.error "price must be >= 0" }) ∧
    (req.ServiceName ≠ "" → 0 ≤ req.Price → uuid.Parse req.UserID = none →
      Create repo (some req) =
        { calls := [], code := 400, body := Body.error "invalid user_id (uuid expected)" }) ∧
    (req.ServiceName ≠ "" → 0 ≤ req.Price → uuid.Parse req.UserID ≠ none →
      (∀ st, date.ParseMonth req.StartDate ≠ Except.ok st) →
      Create repo (some req) =
        { calls := [], code := 400,
          body := Body.error "invalid start_date (YYYY-MM or MM-YYYY)" }) ∧
    (∀ st e, req.ServiceName ≠ "" → 0 ≤ req.Price → uuid.Parse req.UserID ≠ none →
      date.ParseMonth req.StartDate = Except.ok st → req.EndDate = some e → e ≠ "" →
      (∀ en, date.ParseMonth e ≠ Except.ok en) →
      Create repo (some req) =
        { calls := [], code := 400,
          body := Body.error "invalid end_date (YYYY-MM or MM-YYYY)" }) ∧
    (∀ st e en, req.ServiceName ≠ "" → 0 ≤ req.Price → uuid.Parse req.UserID ≠ none →
      date.ParseMonth req.StartDate = Except.ok st → req.EndDate = some e → e ≠ "" →
      date.ParseMonth e = Except.ok en → en.Before st = true →
      Create repo (some req) =
        { calls := [], code := 400, body := Body.error "end_date must be >= start_date" }) := by
  refine ⟨?_, ?_, ?_, ?_, ?_, ?_⟩
  · intro h1
    simp [Create, h1, StatusBadRequest, writeError, writeJSON]
  · intro h1 h2
    simp [Create, h1, h2, StatusBadRequest, writeError, writeJSON]
  · intro h1 h2 h3
    have h2n : ¬ req.Price < 0 := by omega
    simp [Create, h1, h2n, h3, StatusBadRequest, writeError, writeJSON]
  · intro h1 h2 h3 h4
    have h2n : ¬ req.Price < 0 := by omega
    obtain ⟨u, hu⟩ := Option.ne_none_iff_exists'.mp h3
    cases hs : date.ParseMonth req.StartDate with
    | ok st => exact absurd hs (h4 st)
    | error m => simp [Create, h1, h2n, hu, hs, StatusBadRequest, writeError, writeJSON]
  · intro st e h1 h2 h3 h4 h5 h6 h7
    have h2n : ¬ req.Price < 0 := by omega
    obtain ⟨u, hu⟩ := Option.ne_none_iff_exists'.mp h3
    cases he : date.ParseMonth e with
    | ok en => exact absurd he (h7 en)
    | error m =>
      simp [Create, h1, h2n, hu, h4, h5, h6, he, StatusBadRequest, writeError, writeJSON]
  · intro st e en h1 h2 h3 h4 h5 h6 h7 h8
    have h2n : ¬ req.Price < 0 := by omega
    obtain ⟨u, hu⟩ := Option.ne_none_iff_exists'.mp h3
    simp [Create, h1, h2n, hu, h4, h5, h6, h7, h8, StatusBadRequest, writeError, writeJSON]

theorem C4_first_failing_check_wins_witness :
    Create Examples.repoOk
        (some { ServiceName := "", Price := -1, UserID := "not-a-uuid",
                StartDate := "2024-01", EndDate := none }) =
      { calls := [], code := 400, body := Body.error "service_name is required" } ∧
    Create Examples.repoOk
        (some { ServiceName := "tv", Price := 3, UserID := Examples.ownerWide,
                StartDate := "March 2024", EndDate := some "2024-13" }) =
      { calls := [], code := 400, body := Body.error "invalid user_id (uuid expected)" } ∧
    Create Examples.repoOk
        (some { ServiceName := "tv", Price := 3, UserID := Examples.owner,
                StartDate := "March 2024", EndDate := some "2024-13" }) =
      { calls := [], code := 400,
        body := Body.error "invalid start_date (YYYY-MM or MM-YYYY)" } ∧
    Create Examples.repoOk
        (some { ServiceName := "tv", Price := 3, UserID := Examples.owner,
                StartDate := "2024-03", EndDate := some "2024-13" }) =
      { calls := [], code := 400,
        body := Body.error "invalid end_date (YYYY-MM or MM-YYYY)" } :=
  ⟨(C4_first_failing_check_wins Examples.repoOk
      { ServiceName := "", Price := -1, UserID := "not-a-uuid", StartDate := "2024-01",
        EndDate := none }).1 rfl,
   (C4_first_failing_check_wins Examples.repoOk
      { ServiceName := "tv", Price := 3, UserID := Examples.ownerWide,
        StartDate := "March 2024", EndDate := some "2024-13" }).2.2.1
      (by decide) (by decide) rfl,
   (C4_first_failing_check_wins Examples.repoOk
      { ServiceName := "tv", Price := 3, UserID := Examples.owner,
        StartDate := "March 2024", EndDate := some "2024-13" }).2.2.2.1
      (by decide) (by decide) (by decide)
      (fun st h => Except.noConfusion
        ((show date.ParseMonth "March 2024" =
            Except.error "invalid month format (want YYYY-MM or MM-YYYY)" from rfl).symm.trans
          h)),
   (C4_first_failing_check_wins Examples.repoOk
      { ServiceName := "tv", Price := 3, UserID := Examples.owner,
        StartDate := "2024-03", EndDate := some "2024-13" }).2.2.2.2.1
      (time.Date 2024 3 1 0 0 0 0 time.Location.UTC) "2024-13"
      (by decide) (by decide) (by decide) rfl rfl (by decide)
      (fun en h => Except.noConfusion
        ((show date.ParseMonth "2024-13" =
            Except.error "invalid month format (want YYYY-MM or MM-YYYY)" from rfl).symm.trans
          h))⟩

end Claims

namespace Claims

open subscription repository httpapi

/-- The two outcomes of the tail of Create: one gateway call, then 201 or 500. -/
theorem createEntity_calls (repo : SubscriptionRepo) (req : CreateRequest) (u : uuid.UUID)
    (st : time.Time) (en : Option time.Time) :
    (createEntity repo req u st en).calls = [RepoCall.Create (Spec.createdEntity req u st en)] ∧
    ((∃ id, repo.Create (Spec.createdEntity req u st en) = Except.ok id) →
      (createEntity repo req u st en).code = 201) ∧
    ((∃ err, repo.Create (Spec.createdEntity req u st en) = Except.error err) →
      (createEntity repo req u st en).code = 500) := by
  simp only [createEntity, Spec.createdEntity]
  cases h : repo.Create
      { ID := uuid.Nil, ServiceName := req.ServiceName, Price := req.Price, UserID := u,
        StartDate := st, EndDate := en, CreatedAt := zeroTime, UpdatedAt := zeroTime } with
  | ok id => simp [writeJSON, StatusCreated]
  | error e => simp [writeError, writeJSON, StatusInternalServerError]

/-- An accepted body reaches the tail of Create. -/
theorem Create_of_accepts (repo : SubscriptionRepo) (req : CreateRequest)
    (h : Spec.createAccepts req) :
    ∃ u st en, Create repo (some req) = createEntity repo req u st en := by
  obtain ⟨h1, h2, h3, st, h4, h5⟩ := h
  have h2n : ¬ req.Price < 0 := by omega
  obtain ⟨u, hu⟩ := Option.ne_none_iff_exists'.mp h3
  rcases h5 with h5 | h5 | ⟨e, en, h5, h6, h7⟩
  · exact ⟨u, st, none, by simp [Create, h1, h2n, hu, h4, h5]⟩
  · exact ⟨u, st, none, by simp [Create, h1, h2n, hu, h4, h5]⟩
  · by_cases he : e = ""
    · exact ⟨u, st, none, by simp [Create, h1, h2n, hu, h4, h5, he]⟩
    · exact ⟨u, st, some en, by simp [Create, h1, h2n, hu, h4, h5, he, h6, h7]⟩

/-- A body that is not accepted is answered 400 without a gateway call. -/
theorem Create_of_not_accepts (repo : SubscriptionRepo) (req : CreateRequest)
    (h : ¬ Spec.createAccepts req) :
    (Create repo (some req)).calls = [] ∧ (Create repo (some req)).code = 400 := by
  by_cases h1 : req.ServiceName = ""
  · simp [Create, h1, writeError, writeJSON, StatusBadRequest]
  by_cases h2 : req.Price < 0
  · simp [Create, h1, h2, writeError, writeJSON, StatusBadRequest]
  cases hu : uuid.Parse req.UserID with
  | none => simp [Create, h1, h2, hu, writeError, writeJSON, StatusBadRequest]
  | some u =>
    cases h4 : date.ParseMonth req.StartDate with
    | error m => simp [Create, h1, h2, hu, h4, writeError, writeJSON, StatusBadRequest]
    | ok st =>
      have h3 : uuid.Parse req.UserID ≠ none := by simp [hu]
      cases h5 : req.EndDate with
      | none => exact absurd ⟨h1, by omega, h3, st, h4, Or.inl h5⟩ h
      | some e =>
        by_cases he : e = ""
        · exact absurd ⟨h1, by omega, h3, st, h4, Or.inr (Or.inl (by rw [h5, he]))⟩ h
        cases h6 : date.ParseMonth e with
        | error m =>
          simp [Create, h1, h2, hu, h4, h5, he, h6, writeError, writeJSON, StatusBadRequest]
        | ok en =>
          cases h7 : en.Before st with
          | true =>
            simp [Create, h1, h2, hu, h4, h5, he, h6, h7, writeError, writeJSON,
              StatusBadRequest]
          | false =>
            exact absurd ⟨h1, by omega, h3, st, h4, Or.inr (Or.inr ⟨e, en, h5, h6, h7⟩)⟩ h

/-- C5: Create calls the gateway exactly when service_name is non-empty, price is not
negative, user_id parses as a UUID, start_date parses as a month and end_date is absent,
empty or a month not before start_date; it then answers 201 when the gateway succeeds.
Otherwise it answers 400 without calling the gateway. Price -1 is rejected and price 0
accepted; with start_date 2024-03 the end_date 2024-02 is rejected with the message
"end_date must be >= start_date" while the end_date 2024-03 is accepted. -/
theorem C5_create_accepts_iff_valid :
    (∀ (repo : SubscriptionRepo) (req : CreateRequest),
      ((∃ s, (Create repo (some req)).calls = [RepoCall.Create s]) ↔ Spec.createAccepts req) ∧
      (∀ s id, (Create repo (some req)).calls = [RepoCall.Create s] →
        repo.Create s = Except.ok id → (Create repo (some req)).code = 201) ∧
      (¬ Spec.createAccepts req →
        (Create repo (some req)).calls = [] ∧ (Create repo (some req)).code = 400)) ∧
    Create Examples.repoOk
      (some { ServiceName := "tv", Price := -1, UserID := Examples.owner,
              StartDate := "2024-03", EndDate := none }) =
      { calls := [], code := 400, body := Body.error "price must be >= 0" } ∧
    Create Examples.repoOk
      (some { ServiceName := "tv", Price := 0, UserID := Examples.owner,
              StartDate := "2024-03", EndDate := none }) =
      { calls := [RepoCall.Create
          { ID := uuid.Nil, ServiceName := "tv", Price := 0, UserID := Examples.ownerID,
            StartDate := time.Date 2024 3 1 0 0 0 0 time.Location.UTC, EndDate := none,
            CreatedAt := zeroTime, UpdatedAt := zeroTime }],
        code := 201,
        body := Body.entity
          { ID := "01010101-0101-0101-0101-010101010101", ServiceName := "tv", Price := 0,
            UserID := "123e4567-e89b-12d3-a456-426614174000", StartDate := "2024-03",
            EndDate := none } } ∧
    Create Examples.repoOk
      (some { ServiceName := "tv", Price := 0, UserID := Examples.owner,
              StartDate := "2024-03", EndDate := some "2024-02" }) =
      { calls := [], code := 400, body := Body.error "end_date must be >= start_date" } ∧
    Create Examples.repoOk
      (some { ServiceName := "tv", Price := 0, UserID := Examples.owner,
              StartDate := "2024-03", EndDate := some "2024-03" }) =
      { calls := [RepoCall.Create
          { ID := uuid.Nil, ServiceName := "tv", Price := 0, UserID := Examples.ownerID,
            StartDate := time.Date 2024 3 1 0 0 0 0 time.Location.UTC,
            EndDate := some (time.Date 2024 3 1 0 0 0 0 time.Location.UTC),
            CreatedAt := zeroTime, UpdatedAt := zeroTime }],
        code := 201,
        body := Body.entity
          { ID := "01010101-0101-0101-0101-010101010101", ServiceName := "tv", Price := 0,
            UserID := "123e4567-e89b-12d3-a456-426614174000", StartDate := "2024-03",
            EndDate := some "2024-03" } } ∧
    Create Examples.repoOk
      (some { ServiceName := "tv", Price := 0, UserID := Examples.ownerWide,
              StartDate := "2024-03", EndDate := none }) =
      { calls := [], code := 400, body := Body.error "invalid user_id (uuid expected)" } := by
  refine ⟨fun repo req => ⟨⟨?_, ?_⟩, ?_, Create_of_not_accepts repo req⟩, ?_, ?_, ?_, ?_, ?_⟩
  · rintro ⟨s, hs⟩
    by_contra hn
    rw [(Create_of_not_accepts repo req hn).1] at hs
    exact absurd hs (by simp)
  · intro h
    obtain ⟨u, st, en, he⟩ := Create_of_accepts repo req h
    exact ⟨_, by rw [he]; exact (createEntity_calls repo req u st en).1⟩
  · intro s id hs hid
    by_cases h : Spec.createAccepts req
    · obtain ⟨u, st, en, he⟩ := Create_of_accepts repo req h
      rw [he] at hs ⊢
      rw [(createEntity_calls repo req u st en).1] at hs
      have hse : Spec.createdEntity req u st en = s := by simpa using hs
      exact (createEntity_calls repo req u st en).2.1 ⟨id, by rw [hse]; exact hid⟩
    · rw [(Create_of_not_accepts repo req h).1] at hs
      exact absurd hs (by simp)
  · rfl
  · rfl
  · rfl
  · rfl
  · rfl

theorem C5_create_accepts_iff_valid_witness :
    ((Create Examples.repoOk
      (some { ServiceName := "tv", Price := 7, UserID := "nobody",
              StartDate := "2024-03", EndDate := some "" })).calls = [] ∧
    (Create Examples.repoOk
      (some { ServiceName := "tv", Price := 7, UserID := "nobody",
              StartDate := "2024-03", EndDate := some "" })).code = 400) ∧
    (Create Examples.repoOk
      (some { ServiceName := "tv", Price := 7, UserID := Examples.owner,
              StartDate := "03-2024", EndDate := some "2024-05" })).code = 201 ∧
    ((Create Examples.repoOk
      (some { ServiceName := "tv", Price := 7, UserID := Examples.ownerWide,
              StartDate := "03-2024", EndDate := some "2024-05" })).calls = [] ∧
    (Create Examples.repoOk
      (some { ServiceName := "tv", Price := 7, UserID := Examples.ownerWide,
              StartDate := "03-2024", EndDate := some "2024-05" })).code = 400) :=
  ⟨(C5_create_accepts_iff_valid.1 Examples.repoOk
      { ServiceName := "tv", Price := 7, UserID := "nobody", StartDate := "2024-03",
        EndDate := some "" }).2.2 (fun h => h.2.2.1 rfl),
   (C5_create_accepts_iff_valid.1 Examples.repoOk
      { ServiceName := "tv", Price := 7, UserID := Examples.owner, StartDate := "03-2024",
        EndDate := some "2024-05" }).2.1
      (Spec.createdEntity
        { ServiceName := "tv", Price := 7, UserID := Examples.owner, StartDate := "03-2024",
          EndDate := some "2024-05" }
        Examples.ownerID (time.Date 2024 3 1 0 0 0 0 time.Location.UTC)
        (some (time.Date 2024 5 1 0 0 0 0 time.Location.UTC)))
      { bytes := List.replicate 16 1 } rfl rfl,
   (C5_create_accepts_iff_valid.1 Examples.repoOk
      { ServiceName := "tv", Price := 7, UserID := Examples.ownerWide, StartDate := "03-2024",
        EndDate := some "2024-05" }).2.2 (fun h => h.2.2.1 rfl)⟩

end Claims

namespace Claims

open subscription repository httpapi

theorem effectiveLimit_eq (v : String) : effectiveLimit v = Spec.limitOf v := by
  by_cases h : v = ""
  · subst h; rfl
  · simp only [effectiveLimit, Spec.limitOf, ne_eq, h, not_false_eq_true, if_true, gt_iff_lt]

theorem effectiveOffset_eq (v : String) : effectiveOffset v = Spec.offsetOf v := by
  by_cases h : v = ""
  · subst h; rfl
  · simp only [effectiveOffset, Spec.offsetOf, ne_eq, h, not_false_eq_true, if_true, ge_iff_le]

theorem limitOf_bounds (v : String) : 1 ≤ Spec.limitOf v ∧ Spec.limitOf v ≤ 100 := by
  unfold Spec.limitOf
  cases strconv.Atoi v with
  | none => simp
  | some n =>
    by_cases h : 0 < n ∧ n ≤ 100
    · show 1 ≤ (if 0 < n ∧ n ≤ 100 then n else 20) ∧ (if 0 < n ∧ n ≤ 100 then n else 20) ≤ 100
      rw [if_pos h]; omega
    · show 1 ≤ (if 0 < n ∧ n ≤ 100 then n else 20) ∧ (if 0 < n ∧ n ≤ 100 then n else 20) ≤ 100
      rw [if_neg h]; omega

theorem offsetOf_nonneg (v : String) : 0 ≤ Spec.offsetOf v := by
  unfold Spec.offsetOf
  cases strconv.Atoi v with
  | none => simp
  | some n =>
    by_cases h : 0 ≤ n
    · show 0 ≤ (if 0 ≤ n then n else 0)
      rw [if_pos h]; exact h
    · show 0 ≤ (if 0 ≤ n then n else 0)
      rw [if_neg h]

/-- The tail of List: one gateway call with the effective limit and offset, echoed in the
page when the gateway succeeds. -/
theorem listPage_spec (repo : SubscriptionRepo) (q : Values) (u : Option uuid.UUID) :
    ∃ f : ListFilter, (listPage repo q u).calls = [RepoCall.List f] ∧
      f.Limit = Spec.limitOf (q "limit") ∧ f.Offset = Spec.offsetOf (q "offset") ∧
      (listPage repo q u).code ≠ 400 ∧
      (∀ items, repo.List f = Except.ok items →
        (listPage repo q u).code = 200 ∧
        (listPage repo q u).body =
          Body.page
            (items.map (fun s =>
              { ID := s.ID.String, ServiceName := s.ServiceName, Price := s.Price,
                UserID := s.UserID.String, StartDate := date.FormatMonth s.StartDate,
                EndDate := s.EndDate.map date.FormatMonth }))
            (Spec.limitOf (q "limit")) (Spec.offsetOf (q "offset"))) := by
  refine ⟨{ UserID := u, ServiceName := serviceNameParam q,
            Limit := effectiveLimit (q "limit"), Offset := effectiveOffset (q "offset") },
    ?_, effectiveLimit_eq _, effectiveOffset_eq _, ?_, ?_⟩
  · simp only [listPage]
    split <;> simp [writeError, writeJSON]
  · simp only [listPage]
    split <;> simp [writeError, writeJSON, StatusOK, StatusInternalServerError]
  · intro items h
    rw [effectiveLimit_eq, effectiveOffset_eq] at h
    simp only [listPage, effectiveLimit_eq, effectiveOffset_eq, h, StatusOK, writeJSON]
    exact ⟨trivial, rfl⟩

/-- C6: in List, whatever the limit and offset parameters hold, the limit passed to the
gateway and echoed in the response is the parsed integer when it lies in 1..100 and 20
otherwise, and the offset is the parsed integer when it is not negative and 0 otherwise; so
the limit is always in 1..100 and the offset never negative, and the only 400 response is
the one for an unparseable user_id. The limits 500 and 0 both give 20. -/
theorem C6_list_limit_offset_defaults :
    (∀ (repo : SubscriptionRepo) (q : Values),
      ((List repo q).code = 400 ↔ (q "user_id" ≠ "" ∧ uuid.Parse (q "user_id") = none)) ∧
      (¬ (q "user_id" ≠ "" ∧ uuid.Parse (q "user_id") = none) →
        ∃ f : ListFilter, (List repo q).calls = [RepoCall.List f] ∧
          f.Limit = Spec.limitOf (q "limit") ∧ f.Offset = Spec.offsetOf (q "offset") ∧
          1 ≤ f.Limit ∧ f.Limit ≤ 100 ∧ 0 ≤ f.Offset ∧
          (∀ items, repo.List f = Except.ok items →
            (List repo q).code = 200 ∧
            (List repo q).body =
              Body.page
                (items.map (fun s =>
                  { ID := s.ID.String, ServiceName := s.ServiceName, Price := s.Price,
                    UserID := s.UserID.String, StartDate := date.FormatMonth s.StartDate,
                    EndDate := s.EndDate.map date.FormatMonth }))
                f.Limit f.Offset))) ∧
    Spec.limitOf "" = 20 ∧ Spec.limitOf "abc" = 20 ∧ Spec.limitOf "-3" = 20 ∧
    Spec.limitOf "101" = 20 ∧ Spec.limitOf "100" = 100 ∧ Spec.limitOf "1" = 1 ∧
    Spec.offsetOf "" = 0 ∧ Spec.offsetOf "-1" = 0 ∧ Spec.offsetOf "x" = 0 ∧
    Spec.offsetOf "40" = 40 ∧
    List Examples.repoOk (Examples.query1 "limit" "500") =
      { calls := [RepoCall.List
          { UserID := none, ServiceName := none, Limit := 20, Offset := 0 }],
        code := 200, body := Body.page [] 20 0 } ∧
    List Examples.repoOk (Examples.query1 "limit" "0") =
      { calls := [RepoCall.List
          { UserID := none, ServiceName := none, Limit := 20, Offset := 0 }],
        code := 200, body := Body.page [] 20 0 } ∧
    List Examples.repoHolding (Examples.query1 "limit" "50") =
      { calls := [RepoCall.List
          { UserID := none, ServiceName := none, Limit := 50, Offset := 0 }],
        code := 200,
        body := Body.page
          [{ ID := "123e4567-e89b-12d3-a456-426614174000", ServiceName := "tv", Price := 7,
             UserID := "123e4567-e89b-12d3-a456-426614174000", StartDate := "2024-03",
             EndDate := some "2024-05" }] 50 0 } ∧
    List Examples.repoHolding (Examples.query1 "offset" "30") =
      { calls := [RepoCall.List
          { UserID := none, ServiceName := none, Limit := 20, Offset := 30 }],
        code := 200,
        body := Body.page
          [{ ID := "123e4567-e89b-12d3-a456-426614174000", ServiceName := "tv", Price := 7,
             UserID := "123e4567-e89b-12d3-a456-426614174000", StartDate := "2024-03",
             EndDate := some "2024-05" }] 20 30 } ∧
    List Examples.repoOk (Examples.query1 "user_id" Examples.ownerWide) =
      { calls := [], code := 400, body := Body.error "invalid user_id" } := by
  refine ⟨fun repo q => ?_, rfl, rfl, rfl, rfl, rfl, rfl, rfl, rfl, rfl, rfl, rfl, rfl, rfl,
    rfl, rfl⟩
  by_cases hu : q "user_id" = ""
  · have hl : List repo q = listPage repo q none := by simp [httpapi.List, hu]
    obtain ⟨f, h1, h2, h3, h4, h5⟩ := listPage_spec repo q none
    rw [hl]
    refine ⟨⟨fun h => absurd h h4, fun h => absurd hu h.1⟩, fun _ => ⟨f, h1, h2, h3, ?_, ?_, ?_, ?_⟩⟩
    · rw [h2]; exact (limitOf_bounds _).1
    · rw [h2]; exact (limitOf_bounds _).2
    · rw [h3]; exact offsetOf_nonneg _
    · intro items hi
      rw [h2, h3]; exact h5 items hi
  · cases hp : uuid.Parse (q "user_id") with
    | none =>
      have hl : List repo q = writeError [] 400 "invalid user_id" := by
        simp [httpapi.List, hu, hp, StatusBadRequest]
      rw [hl]
      exact ⟨⟨fun _ => ⟨hu, rfl⟩, fun _ => rfl⟩, fun h => absurd ⟨hu, rfl⟩ h⟩
    | some u =>
      have hl : List repo q = listPage repo q (some u) := by simp [httpapi.List, hu, hp]
      obtain ⟨f, h1, h2, h3, h4, h5⟩ := listPage_spec repo q (some u)
      rw [hl]
      refine ⟨⟨fun h => absurd h h4, fun h => ?_⟩, fun _ => ⟨f, h1, h2, h3, ?_, ?_, ?_, ?_⟩⟩
      · exact absurd h.2 (by simp)
      · rw [h2]; exact (limitOf_bounds _).1
      · rw [h2]; exact (limitOf_bounds _).2
      · rw [h3]; exact offsetOf_nonneg _
      · intro items hi
        rw [h2, h3]; exact h5 items hi

theorem C6_list_limit_offset_defaults_witness :
    ∃ f : ListFilter,
      (List Examples.repoHolding (Examples.query1 "offset" "-7")).calls = [RepoCall.List f] ∧
      f.Limit = Spec.limitOf "" ∧ f.Offset = Spec.offsetOf "-7" ∧
      1 ≤ f.Limit ∧ f.Limit ≤ 100 ∧ 0 ≤ f.Offset ∧
      (∀ items, Examples.repoHolding.List f = Except.ok items →
        (List Examples.repoHolding (Examples.query1 "offset" "-7")).code = 200 ∧
        (List Examples.repoHolding (Examples.query1 "offset" "-7")).body =
          Body.page
            (items.map (fun s =>
              { ID := s.ID.String, ServiceName := s.ServiceName, Price := s.Price,
                UserID := s.UserID.String, StartDate := date.FormatMonth s.StartDate,
                EndDate := s.EndDate.map date.FormatMonth }))
            f.Limit f.Offset) :=
  (C6_list_limit_offset_defaults.1 Examples.repoHolding (Examples.query1 "offset" "-7")).2
    (fun h => h.1 rfl)

end Claims

/-! ## The summary query -/

namespace Claims

open subscription repository httpapi

theorem monthStart_le (i j : Int) : (Spec.monthStart i).le (Spec.monthStart j) = true ↔ i ≤ j := by
  simp only [SqlDate.le, Spec.monthStart, Bool.or_eq_true, Bool.and_eq_true, decide_eq_true_eq]
  omega

theorem addMonth_monthStart (i : Int) : addMonth (Spec.monthStart i) = Spec.monthStart (i + 1) := by
  have hd : ∀ m y : Int, min (1 : Int) (time.daysIn m y) = 1 := fun m y => by
    have := time.one_le_daysIn m y
    omega
  simp only [addMonth, Spec.monthStart, hd]
  by_cases h : i % 12 + 1 = 12
  · simp only [h, if_true, SqlDate.mk.injEq, and_true]
    omega
  · simp only [h, if_false, SqlDate.mk.injEq, and_true]
    omega

theorem monthStart_monthIndex (d : SqlDate) (h : Spec.isCalendarMonth d) :
    Spec.monthStart (Spec.monthIndex d) = d := by
  obtain ⟨h1, h2, h3⟩ := h
  cases d with
  | mk y m dd =>
    simp only [Spec.monthStart, Spec.monthIndex, SqlDate.mk.injEq] at *
    omega

theorem generateSeriesAux_months (j : Int) (n : Nat) :
    ∀ (fuel : Nat) (i : Int), n < fuel → i + (n : Int) = j + 1 →
      generateSeriesAux fuel (Spec.monthStart i) (Spec.monthStart j) =
        (List.range n).map (fun (k : Nat) => Spec.monthStart (i + (k : Int))) := by
  induction n with
  | zero =>
    intro fuel i hf hi
    obtain ⟨fuel, rfl⟩ : ∃ k, fuel = k + 1 := ⟨fuel - 1, by omega⟩
    have hle : (Spec.monthStart i).le (Spec.monthStart j) = false := by
      rw [Bool.eq_false_iff, Ne, monthStart_le]
      omega
    simp [generateSeriesAux, hle]
  | succ n ih =>
    intro fuel i hf hi
    obtain ⟨fuel, rfl⟩ : ∃ k, fuel = k + 1 := ⟨fuel - 1, by omega⟩
    have hle : (Spec.monthStart i).le (Spec.monthStart j) = true := by
      rw [monthStart_le]
      omega
    have hrec := ih fuel (i + 1) (by omega) (by push_cast at hi ⊢; omega)
    simp only [generateSeriesAux, hle, if_true, addMonth_monthStart, hrec, List.range_succ_eq_map,
      List.map_cons, List.map_map]
    congr 1
    · simp
    · apply List.map_congr_left
      intro k _
      simp only [Function.comp, Nat.succ_eq_add_one]
      congr 1
      push_cast
      omega

/-- The series of the query is the list of the calendar months of the range. -/
theorem generate_series_months (start stop : SqlDate) (hs : Spec.isCalendarMonth start)
    (he : Spec.isCalendarMonth stop) (hle : start.le stop = true) :
    generate_series start stop =
      Spec.monthsOfRange (Spec.monthIndex start) (Spec.monthIndex stop) := by
  have hij : Spec.monthIndex start ≤ Spec.monthIndex stop := by
    rw [← monthStart_le, monthStart_monthIndex start hs, monthStart_monthIndex stop he]
    exact hle
  have hfuel : (stop.year - start.year) * 12 + (stop.month - start.month) + 2 =
      Spec.monthIndex stop - Spec.monthIndex start + 2 := by
    simp only [Spec.monthIndex]; ring
  have h := generateSeriesAux_months (Spec.monthIndex stop)
    (Spec.monthIndex stop - Spec.monthIndex start + 1).toNat
    ((stop.year - start.year) * 12 + (stop.month - start.month) + 2).toNat
    (Spec.monthIndex start) (by rw [hfuel]; omega) (by omega)
  rw [monthStart_monthIndex start hs, monthStart_monthIndex stop he] at h
  simp only [generate_series, Spec.monthsOfRange, h]

end Claims

namespace Claims

open subscription repository httpapi

theorem joinCond_eq (s : Row) (m : SqlDate) : joinCond s m = Spec.activeIn s m := by
  cases s with
  | mk id name price user st en => cases en <;> simp [joinCond, Spec.activeIn]

theorem whereCond_eq (ilike : String → String → Bool) (f : SummaryFilter) (s : Row) :
    whereCond ilike f s = Spec.matchesFilter ilike f s := by
  cases f with
  | mk st en u p => cases u <;> cases p <;> simp [whereCond, Spec.matchesFilter]

/-- The rows the join and the filter keep for one month. -/
theorem selected_month (ilike : String → String → Bool) (f : SummaryFilter) (rows : List Row)
    (m : SqlDate) :
    ((((rows.filter (fun s => joinCond s m)).map (fun s => (m, s))).filter
        (fun ms => whereCond ilike f ms.2)).map (fun ms => ms.2.price)) =
      (rows.filter (fun s => Spec.matchesFilter ilike f s && Spec.activeIn s m)).map
        (fun s => s.price) := by
  induction rows with
  | nil => rfl
  | cons s rows ih =>
    simp only [List.filter_cons, joinCond_eq, whereCond_eq] at ih ⊢
    cases h1 : Spec.activeIn s m <;> cases h2 : Spec.matchesFilter ilike f s <;>
      simp [h2, ih, whereCond_eq]

/-- The sum of the prices over the joined and filtered pairs, month by month. -/
theorem selected_sum (ilike : String → String → Bool) (f : SummaryFilter) (rows : List Row)
    (months : List SqlDate) :
    ((((months.flatMap
          (fun m => (rows.filter (fun s => joinCond s m)).map (fun s => (m, s)))).filter
        (fun ms => whereCond ilike f ms.2)).map (fun ms => ms.2.price))).sum =
      (months.map (fun m =>
        ((rows.filter (fun s => Spec.matchesFilter ilike f s && Spec.activeIn s m)).map
          (fun s => s.price)).sum)).sum := by
  induction months with
  | nil => rfl
  | cons m months ih =>
    simp only [List.flatMap_cons, List.filter_append, List.map_append, List.sum_append,
      List.map_cons, List.sum_cons, ih, selected_month]

theorem coalesce_sum (l : List (SqlDate × Row)) :
    (if l.isEmpty then none else some ((l.map (fun ms => ms.2.price)).sum)).getD 0 =
      (l.map (fun ms => ms.2.price)).sum := by
  cases l <;> simp

/-- The query returns the monthly total of the claim, cast to a 32-bit integer. -/
theorem Summary_eq_cast (ilike : String → String → Bool) (rows : List Row) (f : SummaryFilter)
    (hs : Spec.isCalendarMonth (toDate f.Start)) (he : Spec.isCalendarMonth (toDate f.End))
    (hle : (toDate f.Start).le (toDate f.End) = true) :
    repository.Summary ilike rows f =
      castInt4 (Spec.monthlyTotal ilike rows f (Spec.monthIndex (toDate f.Start))
        (Spec.monthIndex (toDate f.End))) := by
  simp only [repository.Summary, generate_series_months _ _ hs he hle]
  rw [coalesce_sum, selected_sum]
  rfl

end Claims

namespace Claims

open subscription repository httpapi

/-- The number of `k < n` with `lo ≤ a + k ≤ hi`. -/
theorem count_interval (a lo hi : Int) (n : Nat) :
    ((List.range n).map
      (fun (k : Nat) => if lo ≤ a + (k : Int) ∧ a + (k : Int) ≤ hi then (1 : Int) else 0)).sum =
      max 0 (min (a + (n : Int) - 1) hi - max a lo + 1) := by
  induction n with
  | zero => simp; omega
  | succ n ih =>
    rw [List.range_succ, List.map_append, List.sum_append, ih]
    simp only [List.map_cons, List.map_nil, List.sum_cons, List.sum_nil, add_zero]
    push_cast
    split_ifs <;> omega

end Claims

namespace Claims

open subscription repository httpapi

theorem sum_indicator_mul (p : Int) (A : SqlDate → Bool) (ms : List SqlDate) :
    (ms.map (fun m => if A m then p else 0)).sum =
      p * (ms.map (fun m => if A m then (1 : Int) else 0)).sum := by
  induction ms with
  | nil => simp
  | cons m ms ih =>
    simp only [List.map_cons, List.sum_cons, ih]
    split_ifs <;> ring

/-- Summing month by month or subscription by subscription gives the same total. -/
theorem sum_swap (M : Row → Bool) (A : Row → SqlDate → Bool) (rows : List Row)
    (ms : List SqlDate) :
    (ms.map (fun m => ((rows.filter (fun s => M s && A s m)).map (fun s => s.price)).sum)).sum =
      ((rows.filter M).map
        (fun s => s.price * (ms.map (fun m => if A s m then (1 : Int) else 0)).sum)).sum := by
  induction rows with
  | nil => simp
  | cons s rows ih =>
    cases hM : M s
    · simp only [List.filter_cons, hM, Bool.false_and, Bool.false_eq_true, if_false]
      exact ih
    · have hstep : ∀ m, ((List.filter (fun r => M r && A r m) (s :: rows)).map
          (fun r => r.price)).sum =
          (if A s m then s.price else 0) +
            ((rows.filter (fun r => M r && A r m)).map (fun r => r.price)).sum := by
        intro m
        cases hA : A s m <;> simp [List.filter_cons, hM, hA]
      rw [show (fun m => ((List.filter (fun r => M r && A r m) (s :: rows)).map
            (fun r => r.price)).sum) =
          (fun m => (if A s m then s.price else 0) +
            ((rows.filter (fun r => M r && A r m)).map (fun r => r.price)).sum) from
          funext hstep,
        List.sum_map_add, ih, sum_indicator_mul s.price (A s) ms]
      simp [List.filter_cons, hM]

theorem date_le_monthStart (d : SqlDate) (hd : Spec.isDate d) (k : Int) :
    d.le (Spec.monthStart k) = true ↔ Spec.firstMonthFrom d ≤ k := by
  obtain ⟨h1, h2, h3⟩ := hd
  simp only [SqlDate.le, Spec.monthStart, Spec.firstMonthFrom, Spec.monthIndex, Bool.or_eq_true,
    Bool.and_eq_true, decide_eq_true_eq]
  split_ifs <;> omega

theorem monthStart_le_date (d : SqlDate) (hd : Spec.isDate d) (k : Int) :
    (Spec.monthStart k).le d = true ↔ k ≤ Spec.monthIndex d := by
  obtain ⟨h1, h2, h3⟩ := hd
  simp only [SqlDate.le, Spec.monthStart, Spec.monthIndex, Bool.or_eq_true, Bool.and_eq_true,
    decide_eq_true_eq]
  omega

theorem activeIn_monthStart (s : Row) (hrow : Spec.rowHasDates s) (k : Int) :
    Spec.activeIn s (Spec.monthStart k) = true ↔
      (Spec.firstMonthFrom s.start_date ≤ k ∧
        ∀ e, s.end_date = some e → k ≤ Spec.monthIndex e) := by
  obtain ⟨hst, hen⟩ := hrow
  have h1 := date_le_monthStart s.start_date hst k
  cases he : s.end_date with
  | none => simp [Spec.activeIn, he, h1]
  | some e =>
    have h2 := monthStart_le_date e (hen e he) k
    simp [Spec.activeIn, he, h1, h2]

/-- The number of months of the range in which a subscription is active. -/
theorem active_count (a b : Int) (hab : a ≤ b) (s : Row) (hrow : Spec.rowHasDates s) :
    ((Spec.monthsOfRange a b).map (fun m => if Spec.activeIn s m then (1 : Int) else 0)).sum =
      Spec.overlapMonths a b s := by
  simp only [Spec.monthsOfRange, List.map_map]
  cases he : s.end_date with
  | none =>
    have hcongr : (List.range (b - a + 1).toNat).map
        ((fun m => if Spec.activeIn s m then (1 : Int) else 0) ∘
          (fun (k : Nat) => Spec.monthStart (a + (k : Int)))) =
        (List.range (b - a + 1).toNat).map
          (fun (k : Nat) => if Spec.firstMonthFrom s.start_date ≤ a + (k : Int) ∧
            a + (k : Int) ≤ b then (1 : Int) else 0) := by
      apply List.map_congr_left
      intro k hk
      have hk2 : a + (k : Int) ≤ b := by
        have := List.mem_range.mp hk
        omega
      have := activeIn_monthStart s hrow (a + (k : Int))
      simp only [he, false_implies, implies_true, and_true, reduceCtorEq] at this
      by_cases hc : Spec.firstMonthFrom s.start_date ≤ a + (k : Int)
      · simp [Function.comp, this.mpr hc, hc, hk2]
      · have hf : Spec.activeIn s (Spec.monthStart (a + (k : Int))) = false := by
          rw [Bool.eq_false_iff, Ne, this]; exact hc
        simp [Function.comp, hf, hc]
    rw [hcongr, count_interval]
    simp only [Spec.overlapMonths, he]
    have : ((b - a + 1).toNat : Int) = b - a + 1 := Int.toNat_of_nonneg (by omega)
    omega
  | some e =>
    have hcongr : (List.range (b - a + 1).toNat).map
        ((fun m => if Spec.activeIn s m then (1 : Int) else 0) ∘
          (fun (k : Nat) => Spec.monthStart (a + (k : Int)))) =
        (List.range (b - a + 1).toNat).map
          (fun (k : Nat) => if Spec.firstMonthFrom s.start_date ≤ a + (k : Int) ∧
            a + (k : Int) ≤ Spec.monthIndex e then (1 : Int) else 0) := by
      apply List.map_congr_left
      intro k _
      have := activeIn_monthStart s hrow (a + (k : Int))
      simp only [he, Option.some.injEq, forall_eq'] at this
      by_cases hc : Spec.firstMonthFrom s.start_date ≤ a + (k : Int) ∧
          a + (k : Int) ≤ Spec.monthIndex e
      · simp [Function.comp, this.mpr hc, hc]
      · have hf : Spec.activeIn s (Spec.monthStart (a + (k : Int))) = false := by
          rw [Bool.eq_false_iff, Ne, this]; exact hc
        simp only [Function.comp, hf, Bool.false_eq_true, if_false, hc]
    rw [hcongr, count_interval]
    simp only [Spec.overlapMonths, he]
    have : ((b - a + 1).toNat : Int) = b - a + 1 := Int.toNat_of_nonneg (by omega)
    omega

/-- The two forms of the total of the claim agree. -/
theorem monthlyTotal_eq_overlapTotal (ilike : String → String → Bool) (rows : List Row)
    (f : SummaryFilter) (a b : Int) (hab : a ≤ b) (hrows : ∀ s ∈ rows, Spec.rowHasDates s) :
    Spec.monthlyTotal ilike rows f a b = Spec.overlapTotal ilike rows f a b := by
  simp only [Spec.monthlyTotal, Spec.overlapTotal]
  rw [sum_swap (fun s => Spec.matchesFilter ilike f s) Spec.activeIn rows]
  congr 1
  apply List.map_congr_left
  intro s hs
  rw [active_count a b hab s (hrows s (List.mem_of_mem_filter hs))]

end Claims

namespace Claims

open subscription repository httpapi

theorem monthlyTotal_zero (ilike : String → String → Bool) (rows : List Row)
    (f : SummaryFilter) (a b : Int)
    (h : ∀ m ∈ Spec.monthsOfRange a b, ∀ s ∈ rows,
      (Spec.matchesFilter ilike f s && Spec.activeIn s m) = false) :
    Spec.monthlyTotal ilike rows f a b = 0 := by
  simp only [Spec.monthlyTotal]
  apply List.sum_eq_zero
  intro x hx
  obtain ⟨m, hm, rfl⟩ := List.mem_map.mp hx
  have : rows.filter (fun s => Spec.matchesFilter ilike f s && Spec.activeIn s m) = [] := by
    rw [List.filter_eq_nil_iff]
    intro s hs
    simp [h m hm s hs]
  simp [this]

/-- C7 (as amended): for every first-of-month range with end not before start and every set
of stored subscriptions, the Summary query returns the sum, over each calendar month of the
inclusive range and each subscription that matches the optional owner and name filters and
is active in that month, of the price, provided this sum lies in the 32-bit signed range
to which the query casts it, and returns an error instead of a total when the sum lies
outside that range; the sum is that of price times the number of months in the intersection
of the range with the interval of the subscription, and the total is 0 when nothing
matches. -/
theorem C7_summary_counts_each_month (ilike : String → String → Bool) (rows : List Row)
    (f : SummaryFilter) (hs : Spec.isCalendarMonth (toDate f.Start))
    (he : Spec.isCalendarMonth (toDate f.End))
    (hle : (toDate f.Start).le (toDate f.End) = true) :
    ((-(2 : Int) ^ 31 ≤ Spec.monthlyTotal ilike rows f (Spec.monthIndex (toDate f.Start))
          (Spec.monthIndex (toDate f.End)) ∧
        Spec.monthlyTotal ilike rows f (Spec.monthIndex (toDate f.Start))
          (Spec.monthIndex (toDate f.End)) ≤ (2 : Int) ^ 31 - 1) →
      repository.Summary ilike rows f =
        Except.ok (Spec.monthlyTotal ilike rows f (Spec.monthIndex (toDate f.Start))
          (Spec.monthIndex (toDate f.End)))) ∧
    (¬ (-(2 : Int) ^ 31 ≤ Spec.monthlyTotal ilike rows f (Spec.monthIndex (toDate f.Start))
          (Spec.monthIndex (toDate f.End)) ∧
        Spec.monthlyTotal ilike rows f (Spec.monthIndex (toDate f.Start))
          (Spec.monthIndex (toDate f.End)) ≤ (2 : Int) ^ 31 - 1) →
      ∃ err, repository.Summary ilike rows f = Except.error err) ∧
    ((∀ s ∈ rows, Spec.rowHasDates s) →
      Spec.monthlyTotal ilike rows f (Spec.monthIndex (toDate f.Start))
          (Spec.monthIndex (toDate f.End)) =
        Spec.overlapTotal ilike rows f (Spec.monthIndex (toDate f.Start))
          (Spec.monthIndex (toDate f.End))) ∧
    ((∀ m ∈ Spec.monthsOfRange (Spec.monthIndex (toDate f.Start))
          (Spec.monthIndex (toDate f.End)),
        ∀ s ∈ rows, (Spec.matchesFilter ilike f s && Spec.activeIn s m) = false) →
      repository.Summary ilike rows f = Except.ok 0) := by
  have hcast := Summary_eq_cast ilike rows f hs he hle
  have hab : Spec.monthIndex (toDate f.Start) ≤ Spec.monthIndex (toDate f.End) := by
    rw [← monthStart_le, monthStart_monthIndex _ hs, monthStart_monthIndex _ he]
    exact hle
  refine ⟨?_, ?_, ?_, ?_⟩
  · intro hr
    rw [hcast, castInt4, if_pos hr]
  · intro hr
    rw [hcast, castInt4, if_neg hr]
    exact ⟨_, rfl⟩
  · intro hrows
    exact monthlyTotal_eq_overlapTotal ilike rows f _ _ hab hrows
  · intro hnone
    rw [hcast, monthlyTotal_zero ilike rows f _ _ hnone]
    rfl

theorem C7_summary_counts_each_month_witness :
    (repository.Summary Examples.noIlike [Examples.rowOpen] Examples.firstQuarter =
        Except.ok 20 ∧
      Spec.overlapTotal Examples.noIlike [Examples.rowOpen] Examples.firstQuarter
        (Spec.monthIndex (toDate Examples.firstQuarter.Start))
        (Spec.monthIndex (toDate Examples.firstQuarter.End)) = 20) ∧
    (repository.Summary Examples.noIlike [Examples.rowClosed] Examples.firstQuarter =
        Except.ok 15 ∧
      Spec.overlapTotal Examples.noIlike [Examples.rowClosed] Examples.firstQuarter
        (Spec.monthIndex (toDate Examples.firstQuarter.Start))
        (Spec.monthIndex (toDate Examples.firstQuarter.End)) = 15) ∧
    repository.Summary Examples.noIlike [] Examples.firstQuarter = Except.ok 0 ∧
    (∃ err, repository.Summary Examples.noIlike [Examples.rowCostly] Examples.twoMonths =
      Except.error err) :=
  ⟨⟨(C7_summary_counts_each_month Examples.noIlike [Examples.rowOpen] Examples.firstQuarter
        ⟨rfl, by decide, by decide⟩ ⟨rfl, by decide, by decide⟩ rfl).1 (by decide),
    ((C7_summary_counts_each_month Examples.noIlike [Examples.rowOpen] Examples.firstQuarter
        ⟨rfl, by decide, by decide⟩ ⟨rfl, by decide, by decide⟩ rfl).2.2.1
      (by
        intro s hs
        rw [List.mem_singleton.mp hs]
        exact ⟨⟨by decide, by decide, by decide⟩, fun _ h => Option.noConfusion h⟩)).symm.trans
      rfl⟩,
   ⟨(C7_summary_counts_each_month Examples.noIlike [Examples.rowClosed] Examples.firstQuarter
        ⟨rfl, by decide, by decide⟩ ⟨rfl, by decide, by decide⟩ rfl).1 (by decide),
    rfl⟩,
   (C7_summary_counts_each_month Examples.noIlike [] Examples.firstQuarter
        ⟨rfl, by decide, by decide⟩ ⟨rfl, by decide, by decide⟩ rfl).2.2.2
      (fun _ _ s hs => absurd hs (List.not_mem_nil s)),
   (C7_summary_counts_each_month Examples.noIlike [Examples.rowCostly] Examples.twoMonths
        ⟨rfl, by decide, by decide⟩ ⟨rfl, by decide, by decide⟩ rfl).2.1 (by decide)⟩

/-- C7 fails as stated: over the range 2024-01..2024-02 a single open-ended subscription
from 2024-01 at price 2000000000 gives the sum 4000000000, which the cast of the query to a
32-bit integer rejects, so the query returns an error instead of the sum. -/
theorem C7_sum_beyond_int_range :
    Spec.isCalendarMonth (toDate Examples.twoMonths.Start) ∧
    Spec.isCalendarMonth (toDate Examples.twoMonths.End) ∧
    (toDate Examples.twoMonths.Start).le (toDate Examples.twoMonths.End) = true ∧
    Spec.monthlyTotal Examples.noIlike [Examples.rowCostly] Examples.twoMonths
      (Spec.monthIndex (toDate Examples.twoMonths.Start))
      (Spec.monthIndex (toDate Examples.twoMonths.End)) = 4000000000 ∧
    repository.Summary Examples.noIlike [Examples.rowCostly] Examples.twoMonths =
      Except.error (GoError.other "integer out of range") ∧
    repository.Summary Examples.noIlike [Examples.rowCostly] Examples.twoMonths ≠
      Except.ok (Spec.monthlyTotal Examples.noIlike [Examples.rowCostly] Examples.twoMonths
        (Spec.monthIndex (toDate Examples.twoMonths.Start))
        (Spec.monthIndex (toDate Examples.twoMonths.End))) := by
  refine ⟨⟨rfl, by decide, by decide⟩, ⟨rfl, by decide, by decide⟩, rfl, rfl, rfl, ?_⟩
  rw [show repository.Summary Examples.noIlike [Examples.rowCostly] Examples.twoMonths =
    Except.error (GoError.other "integer out of range") from rfl]
  exact fun h => Except.noConfusion h

end Claims

namespace Claims

open subscription repository httpapi

/-- Every time that ParseMonth returns is normalized to day 1, 00:00:00.0, UTC. -/
theorem ParseMonth_isMonthStart (s : String) (t : time.Time)
    (h : date.ParseMonth s = Except.ok t) : Spec.isMonthStart t := by
  simp only [date.ParseMonth] at h
  split at h
  · injection h with h
    subst h
    simp [Spec.isMonthStart, time.Date]
  · split at h
    · injection h with h
      subst h
      simp [Spec.isMonthStart, time.Date]
    · exact absurd h (by simp)

/-- Between two month starts, `Before` compares the year and then the month. -/
theorem not_Before_monthStart (a b : time.Time) (ha : Spec.isMonthStart a)
    (hb : Spec.isMonthStart b) :
    b.Before a = false ↔ (a.year < b.year ∨ (a.year = b.year ∧ a.month ≤ b.month)) := by
  obtain ⟨a1, a2, a3, a4, a5, _⟩ := ha
  obtain ⟨b1, b2, b3, b4, b5, _⟩ := hb
  simp only [time.Time.Before, a1, a2, a3, a4, a5, b1, b2, b3, b4, b5, lt_self_iff_false,
    decide_False, Bool.and_false, Bool.or_false, decide_True, Bool.true_and, Bool.or_eq_false_iff,
    Bool.and_eq_false_iff, decide_eq_false_iff_not]
  constructor
  · rintro ⟨h1, h2 | h2⟩ <;> omega
  · intro h
    constructor
    · omega
    · by_cases hy : b.year = a.year
      · right; omega
      · left; exact hy

/-- The tail of Summary makes one gateway call with the parsed range. -/
theorem summaryTotal_calls (repo : SubscriptionRepo) (q : Values) (st en : time.Time)
    (u : Option uuid.UUID) :
    (summaryTotal repo q st en u).calls =
      [RepoCall.Summary { Start := st, End := en, UserID := u,
                          ServiceName := serviceNameParam q }] := by
  simp only [summaryTotal]
  split <;> simp [writeError, writeJSON]

theorem Summary_of_accepts (repo : SubscriptionRepo) (q : Values) (h : Spec.summaryAccepts q) :
    ∃ st en u, date.ParseMonth (q "start") = Except.ok st ∧
      date.ParseMonth (q "end") = Except.ok en ∧ en.Before st = false ∧
      httpapi.Summary repo q = summaryTotal repo q st en u := by
  obtain ⟨h1, h2, st, en, h3, h4, h5, h6⟩ := h
  refine ⟨st, en, ?_⟩
  by_cases hu : q "user_id" = ""
  · exact ⟨none, h3, h4, h5, by simp [httpapi.Summary, h1, h2, h3, h4, h5, hu]⟩
  · rcases h6 with h6 | h6
    · exact absurd h6 hu
    · obtain ⟨u, hp⟩ := Option.ne_none_iff_exists'.mp h6
      exact ⟨some u, h3, h4, h5, by simp [httpapi.Summary, h1, h2, h3, h4, h5, hu, hp]⟩

theorem Summary_of_not_accepts (repo : SubscriptionRepo) (q : Values)
    (h : ¬ Spec.summaryAccepts q) :
    (httpapi.Summary repo q).calls = [] ∧ (httpapi.Summary repo q).code = 400 := by
  by_cases h1 : q "start" = ""
  · simp [httpapi.Summary, h1, writeError, writeJSON, StatusBadRequest]
  by_cases h2 : q "end" = ""
  · simp [httpapi.Summary, h2, writeError, writeJSON, StatusBadRequest]
  cases h3 : date.ParseMonth (q "start") with
  | error m => simp [httpapi.Summary, h1, h2, h3, writeError, writeJSON, StatusBadRequest]
  | ok st =>
    cases h4 : date.ParseMonth (q "end") with
    | error m => simp [httpapi.Summary, h1, h2, h3, h4, writeError, writeJSON, StatusBadRequest]
    | ok en =>
      cases h5 : en.Before st with
      | true =>
        simp [httpapi.Summary, h1, h2, h3, h4, h5, writeError, writeJSON, StatusBadRequest]
      | false =>
        by_cases hu : q "user_id" = ""
        · exact absurd ⟨h1, h2, st, en, h3, h4, h5, Or.inl hu⟩ h
        · cases hp : uuid.Parse (q "user_id") with
          | none =>
            simp [httpapi.Summary, h1, h2, h3, h4, h5, hu, hp, writeError, writeJSON,
              StatusBadRequest]
          | some u =>
            exact absurd ⟨h1, h2, st, en, h3, h4, h5, Or.inr (by simp [hp])⟩ h

/-- C8: Summary calls the gateway only when start and end are both present and non-empty,
both parse as months, the parsed end is not before the parsed start and user_id, if
non-empty, parses as a UUID; in every other case it answers 400 without calling the gateway.
Every filter it passes has Start and End normalized to day 1 00:00 UTC with End not before
Start, and a range whose start equals its end is accepted. -/
theorem C8_summary_validates_range :
    (∀ (repo : SubscriptionRepo) (q : Values),
      ((∃ f, (httpapi.Summary repo q).calls = [RepoCall.Summary f]) ↔ Spec.summaryAccepts q) ∧
      (¬ Spec.summaryAccepts q →
        (httpapi.Summary repo q).calls = [] ∧ (httpapi.Summary repo q).code = 400) ∧
      (∀ f, (httpapi.Summary repo q).calls = [RepoCall.Summary f] →
        Spec.isMonthStart f.Start ∧ Spec.isMonthStart f.End ∧ f.End.Before f.Start = false ∧
        (f.Start.year < f.End.year ∨
          (f.Start.year = f.End.year ∧ f.Start.month ≤ f.End.month)))) ∧
    httpapi.Summary Examples.repoOk (Examples.range "2024-03" "2024-03") =
      { calls := [RepoCall.Summary
          { Start := time.Date 2024 3 1 0 0 0 0 time.Location.UTC,
            End := time.Date 2024 3 1 0 0 0 0 time.Location.UTC,
            UserID := none, ServiceName := none }],
        code := 200, body := Body.total 0 } ∧
    httpapi.Summary Examples.repoOk (Examples.range "2024-03" "2024-02") =
      { calls := [], code := 400, body := Body.error "end must be >= start" } ∧
    httpapi.Summary Examples.repoOk (Examples.query1 "start" "2024-03") =
      { calls := [], code := 400,
        body := Body.error "start and end are required (YYYY-MM or MM-YYYY)" } ∧
    httpapi.Summary Examples.repoOk (Examples.range "2024-3" "2024-04") =
      { calls := [], code := 400, body := Body.error "invalid start" } ∧
    httpapi.Summary Examples.repoOk (Examples.range "2024-03" "April") =
      { calls := [], code := 400, body := Body.error "invalid end" } ∧
    httpapi.Summary Examples.repoOk (Examples.rangeOf "2024-03" "04-2024" Examples.ownerWide) =
      { calls := [], code := 400, body := Body.error "invalid user_id" } ∧
    httpapi.Summary Examples.repoOk (Examples.rangeOf "2024-03" "04-2024" Examples.owner) =
      { calls := [RepoCall.Summary
          { Start := time.Date 2024 3 1 0 0 0 0 time.Location.UTC,
            End := time.Date 2024 4 1 0 0 0 0 time.Location.UTC,
            UserID := some Examples.ownerID, ServiceName := none }],
        code := 200, body := Body.total 0 } := by
  refine ⟨fun repo q => ⟨⟨?_, ?_⟩, Summary_of_not_accepts repo q, ?_⟩, rfl, rfl, rfl, rfl, rfl,
    rfl, rfl⟩
  · rintro ⟨f, hf⟩
    by_contra hn
    rw [(Summary_of_not_accepts repo q hn).1] at hf
    exact absurd hf (by simp)
  · intro h
    obtain ⟨st, en, u, _, _, _, he⟩ := Summary_of_accepts repo q h
    exact ⟨_, by rw [he]; exact summaryTotal_calls repo q st en u⟩
  · intro f hf
    by_cases h : Spec.summaryAccepts q
    · obtain ⟨st, en, u, h3, h4, h5, he⟩ := Summary_of_accepts repo q h
      rw [he, summaryTotal_calls] at hf
      have hfe : f = { Start := st, End := en, UserID := u,
                       ServiceName := serviceNameParam q } := by
        simpa using hf.symm
      subst hfe
      have hs := ParseMonth_isMonthStart _ _ h3
      have hen := ParseMonth_isMonthStart _ _ h4
      exact ⟨hs, hen, h5, (not_Before_monthStart st en hs hen).mp h5⟩
    · rw [(Summary_of_not_accepts repo q h).1] at hf
      exact absurd hf (by simp)

theorem C8_summary_validates_range_witness :
    (httpapi.Summary Examples.repoOk (Examples.range "2024-03" "x")).calls = [] ∧
    (httpapi.Summary Examples.repoOk (Examples.range "2024-03" "x")).code = 400 :=
  (C8_summary_validates_range.1 Examples.repoOk (Examples.range "2024-03" "x")).2.1
    (fun h => by
      obtain ⟨_, _, st, en, _, h4, _⟩ := h
      exact absurd h4 (by simp [show date.ParseMonth (Examples.range "2024-03" "x" "end") =
        Except.error "invalid month format (want YYYY-MM or MM-YYYY)" from rfl]))

end Claims

namespace Claims

open subscription repository httpapi

theorem isYearMonth_shape (v : List Char) (h : Spec.isYearMonth v = true) :
    ∃ a b c d s e g, v = [a, b, c, d, s, e, g] := by
  rcases v with _ | ⟨a, _ | ⟨b, _ | ⟨c, _ | ⟨d, _ | ⟨s, _ | ⟨e, _ | ⟨g, _ | ⟨x, rest⟩⟩⟩⟩⟩⟩⟩⟩
  case cons.cons.cons.cons.cons.cons.cons.nil => exact ⟨a, b, c, d, s, e, g, rfl⟩
  all_goals simp [Spec.isYearMonth] at h

theorem isMonthYear_shape (v : List Char) (h : Spec.isMonthYear v = true) :
    ∃ e g s a b c d, v = [e, g, s, a, b, c, d] := by
  rcases v with _ | ⟨a, _ | ⟨b, _ | ⟨c, _ | ⟨d, _ | ⟨s, _ | ⟨e, _ | ⟨g, _ | ⟨x, rest⟩⟩⟩⟩⟩⟩⟩⟩
  case cons.cons.cons.cons.cons.cons.cons.nil => exact ⟨a, b, c, d, s, e, g, rfl⟩
  all_goals simp [Spec.isMonthYear] at h

/-- A time parsed with the layout `2006-01` has a month 1..12 and a year 0..9999. -/
theorem Parse_yearMonth_range (v : List Char) (t : time.Time)
    (h : time.Parse time.layoutYearMonth v = some t) :
    1 ≤ t.month ∧ t.month ≤ 12 ∧ 0 ≤ t.year ∧ t.year ≤ 9999 := by
  have hs : Spec.isYearMonth v = true := by
    rw [← time.Parse_yearMonth_isSome, h]; rfl
  obtain ⟨a, b, c, d, s, e, g, rfl⟩ := isYearMonth_shape v hs
  rw [time.Parse_yearMonth_seven, if_pos hs] at h
  injection h with h
  subst h
  simp only [Spec.isYearMonth, Bool.and_eq_true, decide_eq_true_eq] at hs
  obtain ⟨⟨⟨⟨⟨⟨⟨⟨ha, hb⟩, hc⟩, hd⟩, _⟩, _⟩, _⟩, h1⟩, h12⟩ := hs
  have := time.num4_lt a b c d ha hb hc hd
  simp only [time.Date]
  omega

/-- A time parsed with the layout `01-2006` has a month 1..12 and a year 0..9999. -/
theorem Parse_monthYear_range (v : List Char) (t : time.Time)
    (h : time.Parse time.layoutMonthYear v = some t) :
    1 ≤ t.month ∧ t.month ≤ 12 ∧ 0 ≤ t.year ∧ t.year ≤ 9999 := by
  have hs : Spec.isMonthYear v = true := by
    rw [← time.Parse_monthYear_isSome, h]; rfl
  obtain ⟨e, g, s, a, b, c, d, rfl⟩ := isMonthYear_shape v hs
  rw [time.Parse_monthYear_seven, if_pos hs] at h
  injection h with h
  subst h
  simp only [Spec.isMonthYear, Bool.and_eq_true, decide_eq_true_eq] at hs
  obtain ⟨⟨⟨⟨⟨⟨⟨⟨_, _⟩, h1⟩, h12⟩, _⟩, ha⟩, hb⟩, hc⟩, hd⟩ := hs
  have := time.num4_lt a b c d ha hb hc hd
  simp only [time.Date]
  omega

/-- Every time that ParseMonth returns is a calendar month of a year 0..9999. -/
theorem ParseMonth_calendarMonth (s : String) (t : time.Time)
    (h : date.ParseMonth s = Except.ok t) :
    Spec.isCalendarMonth (toDate t) ∧ 0 ≤ t.year ∧ t.year ≤ 9999 := by
  simp only [date.ParseMonth] at h
  split at h
  · rename_i t1 h1
    have hr := Parse_yearMonth_range _ _ h1
    injection h with h
    subst h
    exact ⟨⟨rfl, hr.1, hr.2.1⟩, hr.2.2.1, hr.2.2.2⟩
  · split at h
    · rename_i t1 h1
      have hr := Parse_monthYear_range _ _ h1
      injection h with h
      subst h
      exact ⟨⟨rfl, hr.1, hr.2.1⟩, hr.2.2.1, hr.2.2.2⟩
    · exact absurd h (by simp)

/-- The filters the Summary handler passes meet the conditions under which the query of the
gateway is characterized: both ends are calendar months and the start is not after the
end. -/
theorem Summary_filter_in_months (repo : SubscriptionRepo) (q : Values) (f : SummaryFilter)
    (h : (httpapi.Summary repo q).calls = [RepoCall.Summary f]) :
    Spec.isCalendarMonth (toDate f.Start) ∧ Spec.isCalendarMonth (toDate f.End) ∧
      (toDate f.Start).le (toDate f.End) = true := by
  by_cases hacc : Spec.summaryAccepts q
  · obtain ⟨st, en, u, h3, h4, h5, he⟩ := Summary_of_accepts repo q hacc
    rw [he, summaryTotal_calls] at h
    have hfe : f = { Start := st, End := en, UserID := u,
                     ServiceName := serviceNameParam q } := by
      simpa using h.symm
    subst hfe
    have hs := (ParseMonth_calendarMonth _ _ h3).1
    have hen := (ParseMonth_calendarMonth _ _ h4).1
    refine ⟨hs, hen, ?_⟩
    have hord := (not_Before_monthStart st en (ParseMonth_isMonthStart _ _ h3)
      (ParseMonth_isMonthStart _ _ h4)).mp h5
    obtain ⟨d1, _, _⟩ := hs
    obtain ⟨d2, _, _⟩ := hen
    simp only [toDate] at d1 d2
    simp only [SqlDate.le, toDate, d1, d2, le_refl, decide_True, Bool.and_true,
      Bool.or_eq_true, Bool.and_eq_true, decide_eq_true_eq]
    omega
  · rw [(Summary_of_not_accepts repo q hacc).1] at h
    exact absurd h (by simp)

end Claims

namespace Claims

open subscription repository httpapi

/-- C9: in Get with a path id that parses as a UUID, a gateway error that is or wraps the
no-rows error gives 404 "subscription not found", every other gateway error gives 500 with
the fixed message "internal error" whatever the error says, and a nil error gives 200 with
the entity mapped to the response shape. A path id that does not parse gives 400 and the
gateway is not called. -/
theorem C9_get_maps_gateway_results (repo : SubscriptionRepo) (idStr : String) :
    (uuid.Parse idStr = none →
      Get repo idStr =
        { calls := [], code := 400, body := Body.error "invalid id (uuid expected)" }) ∧
    (∀ id, uuid.Parse idStr = some id →
      (∀ err, repo.Get id = Except.error err → err.isErrNoRows = true →
        Get repo idStr =
          { calls := [RepoCall.Get id], code := 404,
            body := Body.error "subscription not found" }) ∧
      (∀ err, repo.Get id = Except.error err → err.isErrNoRows = false →
        Get repo idStr =
          { calls := [RepoCall.Get id], code := 500, body := Body.error "internal error" }) ∧
      (∀ s, repo.Get id = Except.ok s →
        Get repo idStr =
          { calls := [RepoCall.Get id], code := 200,
            body := Body.entity
              { ID := s.ID.String, ServiceName := s.ServiceName, Price := s.Price,
                UserID := s.UserID.String, StartDate := date.FormatMonth s.StartDate,
                EndDate := s.EndDate.map date.FormatMonth } })) ∧
    GoError.isErrNoRows GoError.ErrNoRows = true ∧
    (∀ msg, GoError.isErrNoRows (GoError.wrap msg GoError.ErrNoRows) = true) ∧
    (∀ msg, GoError.isErrNoRows (GoError.other msg) = false) ∧
    (∀ msg other, GoError.isErrNoRows (GoError.wrap msg (GoError.other other)) = false) ∧
    Get Examples.repoOk Examples.owner =
      { calls := [RepoCall.Get Examples.ownerID], code := 404,
        body := Body.error "subscription not found" } ∧
    Get Examples.repoDown Examples.owner =
      { calls := [RepoCall.Get Examples.ownerID], code := 500,
        body := Body.error "internal error" } ∧
    Get Examples.repoHolding Examples.owner =
      { calls := [RepoCall.Get Examples.ownerID], code := 200,
        body := Body.entity
          { ID := "123e4567-e89b-12d3-a456-426614174000", ServiceName := "tv", Price := 7,
            UserID := "123e4567-e89b-12d3-a456-426614174000", StartDate := "2024-03",
            EndDate := some "2024-05" } } ∧
    Get Examples.repoHolding Examples.ownerWide =
      { calls := [], code := 400, body := Body.error "invalid id (uuid expected)" } := by
  refine ⟨?_, ?_, rfl, fun _ => rfl, fun _ => rfl, fun _ _ => rfl, rfl, rfl, rfl, rfl⟩
  · intro h
    simp [Get, h, StatusBadRequest, writeError, writeJSON]
  · intro id h
    refine ⟨?_, ?_, ?_⟩
    · intro err he hn
      simp [Get, h, he, hn, StatusNotFound, writeError, writeJSON]
    · intro err he hn
      simp [Get, h, he, hn, StatusInternalServerError, writeError, writeJSON]
    · intro s hs
      simp [Get, h, hs, StatusOK, toResponse, writeJSON]

theorem C9_get_maps_gateway_results_witness :
    Get Examples.repoOk "xyz" =
      { calls := [], code := 400, body := Body.error "invalid id (uuid expected)" } ∧
    Get Examples.repoOk Examples.owner =
      { calls := [RepoCall.Get Examples.ownerID], code := 404,
        body := Body.error "subscription not found" } ∧
    Get Examples.repoDown Examples.owner =
      { calls := [RepoCall.Get Examples.ownerID], code := 500,
        body := Body.error "internal error" } ∧
    Get Examples.repoHolding Examples.owner =
      { calls := [RepoCall.Get Examples.ownerID], code := 200,
        body := Body.entity
          { ID := Examples.stored.ID.String, ServiceName := Examples.stored.ServiceName,
            Price := Examples.stored.Price, UserID := Examples.stored.UserID.String,
            StartDate := date.FormatMonth Examples.stored.StartDate,
            EndDate := Examples.stored.EndDate.map date.FormatMonth } } :=
  ⟨(C9_get_maps_gateway_results Examples.repoOk "xyz").1 rfl,
   ((C9_get_maps_gateway_results Examples.repoOk Examples.owner).2.1 Examples.ownerID rfl).1
      GoError.ErrNoRows rfl rfl,
   ((C9_get_maps_gateway_results Examples.repoDown Examples.owner).2.1 Examples.ownerID
      rfl).2.1 (GoError.other "connection refused") rfl rfl,
   ((C9_get_maps_gateway_results Examples.repoHolding Examples.owner).2.1 Examples.ownerID
      rfl).2.2 Examples.stored rfl⟩

end Claims

namespace Claims

open subscription repository httpapi

/-- The tail of Update makes one gateway call, with the entity of Create under the path id. -/
theorem updateEntity_calls (repo : SubscriptionRepo) (id : uuid.UUID) (req : CreateRequest)
    (u : uuid.UUID) (st : time.Time) (en : Option time.Time) :
    (updateEntity repo id req u st en).calls =
      [RepoCall.Update { Spec.createdEntity req u st en with ID := id }] := by
  simp only [updateEntity, Spec.createdEntity]
  cases h : repo.Update
      { ID := id, ServiceName := req.ServiceName, Price := req.Price, UserID := u,
        StartDate := st, EndDate := en, CreatedAt := zeroTime, UpdatedAt := zeroTime } with
  | none => simp [writeJSON]
  | some e => simp [writeError, writeJSON]

/-- Update runs the checks of Create: for a path id that parses, it rejects a body exactly
when Create does, with status 400 and no gateway call, its message being that of Create
except for the two shortened ones; otherwise it hands the gateway the entity of Create
under the path id. -/
theorem Update_runs_checks_of_Create (repo : SubscriptionRepo) (idStr : String)
    (id : uuid.UUID) (req : CreateRequest) (hid : uuid.Parse idStr = some id) :
    (∃ msg, Create repo (some req) = { calls := [], code := 400, body := Body.error msg } ∧
      Update repo idStr (some req) =
        { calls := [], code := 400, body := Body.error (Spec.updateMessage msg) }) ∨
    (∃ s, (Create repo (some req)).calls = [RepoCall.Create s] ∧
      (Update repo idStr (some req)).calls = [RepoCall.Update { s with ID := id }]) := by
  by_cases h1 : req.ServiceName = ""
  · exact Or.inl ⟨"service_name is required",
      by simp [Create, h1, StatusBadRequest, writeError, writeJSON],
      by simp [Update, hid, h1, StatusBadRequest, Spec.updateMessage, writeError, writeJSON]⟩
  by_cases h2 : req.Price < 0
  · exact Or.inl ⟨"price must be >= 0",
      by simp [Create, h1, h2, StatusBadRequest, writeError, writeJSON],
      by simp [Update, hid, h1, h2, StatusBadRequest, Spec.updateMessage, writeError, writeJSON]⟩
  cases hu : uuid.Parse req.UserID with
  | none =>
    exact Or.inl ⟨"invalid user_id (uuid expected)",
      by simp [Create, h1, h2, hu, StatusBadRequest, writeError, writeJSON],
      by simp [Update, hid, h1, h2, hu, StatusBadRequest, Spec.updateMessage, writeError,
        writeJSON]⟩
  | some u =>
    cases h4 : date.ParseMonth req.StartDate with
    | error m =>
      exact Or.inl ⟨"invalid start_date (YYYY-MM or MM-YYYY)",
        by simp [Create, h1, h2, hu, h4, StatusBadRequest, writeError, writeJSON],
        by simp [Update, hid, h1, h2, hu, h4, StatusBadRequest, Spec.updateMessage, writeError,
          writeJSON]⟩
    | ok st =>
      cases h5 : req.EndDate with
      | none =>
        refine Or.inr ⟨Spec.createdEntity req u st none, ?_, ?_⟩
        · have : Create repo (some req) = createEntity repo req u st none := by
            simp [Create, h1, h2, hu, h4, h5]
          rw [this]; exact (createEntity_calls repo req u st none).1
        · have : Update repo idStr (some req) = updateEntity repo id req u st none := by
            simp [Update, hid, h1, h2, hu, h4, h5]
          rw [this]; exact updateEntity_calls repo id req u st none
      | some e =>
        by_cases he : e = ""
        · refine Or.inr ⟨Spec.createdEntity req u st none, ?_, ?_⟩
          · have : Create repo (some req) = createEntity repo req u st none := by
              simp [Create, h1, h2, hu, h4, h5, he]
            rw [this]; exact (createEntity_calls repo req u st none).1
          · have : Update repo idStr (some req) = updateEntity repo id req u st none := by
              simp [Update, hid, h1, h2, hu, h4, h5, he]
            rw [this]; exact updateEntity_calls repo id req u st none
        cases h6 : date.ParseMonth e with
        | error m =>
          exact Or.inl ⟨"invalid end_date (YYYY-MM or MM-YYYY)",
            by simp [Create, h1, h2, hu, h4, h5, he, h6, StatusBadRequest, writeError, writeJSON],
            by simp [Update, hid, h1, h2, hu, h4, h5, he, h6, StatusBadRequest,
              Spec.updateMessage, writeError, writeJSON]⟩
        | ok en =>
          cases h7 : en.Before st with
          | true =>
            exact Or.inl ⟨"end_date must be >= start_date",
              by simp [Create, h1, h2, hu, h4, h5, he, h6, h7, StatusBadRequest, writeError,
                writeJSON],
              by simp [Update, hid, h1, h2, hu, h4, h5, he, h6, h7, StatusBadRequest,
                Spec.updateMessage, writeError, writeJSON]⟩
          | false =>
            refine Or.inr ⟨Spec.createdEntity req u st (some en), ?_, ?_⟩
            · have : Create repo (some req) = createEntity repo req u st (some en) := by
                simp [Create, h1, h2, hu, h4, h5, he, h6, h7]
              rw [this]; exact (createEntity_calls repo req u st (some en)).1
            · have : Update repo idStr (some req) =
                  updateEntity repo id req u st (some en) := by
                simp [Update, hid, h1, h2, hu, h4, h5, he, h6, h7]
              rw [this]; exact updateEntity_calls repo id req u st (some en)

/-- C10: for a body whose start_date does not parse, and a well-formed path id, Create and
Update both answer 400 without a gateway call, but Create writes the message
"invalid start_date (YYYY-MM or MM-YYYY)" where Update writes "invalid start_date"; the
same holds for an end_date that does not parse. The messages of the two handlers differ
for the same first offending field. -/
theorem C10_messages_differ :
    uuid.Parse Examples.owner = some Examples.ownerID ∧
    Create Examples.repoOk (some Examples.badStart) =
      { calls := [], code := 400,
        body := Body.error "invalid start_date (YYYY-MM or MM-YYYY)" } ∧
    Update Examples.repoOk Examples.owner (some Examples.badStart) =
      { calls := [], code := 400, body := Body.error "invalid start_date" } ∧
    (Create Examples.repoOk (some Examples.badStart)).body ≠
      (Update Examples.repoOk Examples.owner (some Examples.badStart)).body ∧
    Create Examples.repoOk (some Examples.badEnd) =
      { calls := [], code := 400,
        body := Body.error "invalid end_date (YYYY-MM or MM-YYYY)" } ∧
    Update Examples.repoOk Examples.owner (some Examples.badEnd) =
      { calls := [], code := 400, body := Body.error "invalid end_date" } ∧
    (Create Examples.repoOk (some Examples.badEnd)).body ≠
      (Update Examples.repoOk Examples.owner (some Examples.badEnd)).body := by
  refine ⟨rfl, rfl, rfl, ?_, rfl, rfl, ?_⟩ <;> decide

end Claims

/-! ## The entities handed to the gateway -/

namespace Claims

open subscription repository httpapi

/-- Create either makes no gateway call or reaches its tail with a body that passed every
check, the start and end dates being results of ParseMonth. -/
theorem Create_outcome (repo : SubscriptionRepo) (body : Option CreateRequest) :
    (Create repo body).calls = [] ∨
    ∃ req u st en, body = some req ∧ req.ServiceName ≠ "" ∧ 0 ≤ req.Price ∧
      date.ParseMonth req.StartDate = Except.ok st ∧
      (∀ t, en = some t → (∃ e, date.ParseMonth e = Except.ok t) ∧ t.Before st = false) ∧
      Create repo body = createEntity repo req u st en := by
  cases body with
  | none => exact Or.inl (by simp [Create, writeError, writeJSON])
  | some req =>
    by_cases h1 : req.ServiceName = ""
    · exact Or.inl (by simp [Create, h1, writeError, writeJSON])
    by_cases h2 : req.Price < 0
    · exact Or.inl (by simp [Create, h1, h2, writeError, writeJSON])
    have h2p : 0 ≤ req.Price := by omega
    cases hu : uuid.Parse req.UserID with
    | none => exact Or.inl (by simp [Create, h1, h2, hu, writeError, writeJSON])
    | some u =>
      cases h4 : date.ParseMonth req.StartDate with
      | error m => exact Or.inl (by simp [Create, h1, h2, hu, h4, writeError, writeJSON])
      | ok st =>
        cases h5 : req.EndDate with
        | none =>
          exact Or.inr ⟨req, u, st, none, rfl, h1, h2p, h4, fun t ht => absurd ht (by simp),
            by simp [Create, h1, h2, hu, h4, h5]⟩
        | some e =>
          by_cases he : e = ""
          · exact Or.inr ⟨req, u, st, none, rfl, h1, h2p, h4, fun t ht => absurd ht (by simp),
              by simp [Create, h1, h2, hu, h4, h5, he]⟩
          cases h6 : date.ParseMonth e with
          | error m =>
            exact Or.inl (by simp [Create, h1, h2, hu, h4, h5, he, h6, writeError, writeJSON])
          | ok en =>
            cases h7 : en.Before st with
            | true =>
              exact Or.inl
                (by simp [Create, h1, h2, hu, h4, h5, he, h6, h7, writeError, writeJSON])
            | false =>
              refine Or.inr ⟨req, u, st, some en, rfl, h1, h2p, h4, ?_,
                by simp [Create, h1, h2, hu, h4, h5, he, h6, h7]⟩
              intro t ht
              have : en = t := by simpa using ht
              subst this
              exact ⟨⟨e, h6⟩, h7⟩

/-- Update either makes no gateway call or reaches its tail with the parsed path id and a
body that passed every check, the start and end dates being results of ParseMonth. -/
theorem Update_outcome (repo : SubscriptionRepo) (idStr : String)
    (body : Option CreateRequest) :
    (Update repo idStr body).calls = [] ∨
    ∃ id req u st en, uuid.Parse idStr = some id ∧ body = some req ∧
      req.ServiceName ≠ "" ∧ 0 ≤ req.Price ∧
      date.ParseMonth req.StartDate = Except.ok st ∧
      (∀ t, en = some t → (∃ e, date.ParseMonth e = Except.ok t) ∧ t.Before st = false) ∧
      Update repo idStr body = updateEntity repo id req u st en := by
  cases hid : uuid.Parse idStr with
  | none => exact Or.inl (by simp [Update, hid, writeError, writeJSON])
  | some id =>
    cases body with
    | none => exact Or.inl (by simp [Update, hid, writeError, writeJSON])
    | some req =>
      by_cases h1 : req.ServiceName = ""
      · exact Or.inl (by simp [Update, hid, h1, writeError, writeJSON])
      by_cases h2 : req.Price < 0
      · exact Or.inl (by simp [Update, hid, h1, h2, writeError, writeJSON])
      have h2p : 0 ≤ req.Price := by omega
      cases hu : uuid.Parse req.UserID with
      | none => exact Or.inl (by simp [Update, hid, h1, h2, hu, writeError, writeJSON])
      | some u =>
        cases h4 : date.ParseMonth req.StartDate with
        | error m =>
          exact Or.inl (by simp [Update, hid, h1, h2, hu, h4, writeError, writeJSON])
        | ok st =>
          cases h5 : req.EndDate with
          | none =>
            exact Or.inr ⟨id, req, u, st, none, rfl, rfl, h1, h2p, h4,
              fun t ht => absurd ht (by simp), by simp [Update, hid, h1, h2, hu, h4, h5]⟩
          | some e =>
            by_cases he : e = ""
            · exact Or.inr ⟨id, req, u, st, none, rfl, rfl, h1, h2p, h4,
                fun t ht => absurd ht (by simp),
                by simp [Update, hid, h1, h2, hu, h4, h5, he]⟩
            cases h6 : date.ParseMonth e with
            | error m =>
              exact Or.inl
                (by simp [Update, hid, h1, h2, hu, h4, h5, he, h6, writeError, writeJSON])
            | ok en =>
              cases h7 : en.Before st with
              | true =>
                exact Or.inl
                  (by simp [Update, hid, h1, h2, hu, h4, h5, he, h6, h7, writeError,
                    writeJSON])
              | false =>
                refine Or.inr ⟨id, req, u, st, some en, rfl, rfl, h1, h2p, h4, ?_,
                  by simp [Update, hid, h1, h2, hu, h4, h5, he, h6, h7]⟩
                intro t ht
                have : en = t := by simpa using ht
                subst this
                exact ⟨⟨e, h6⟩, h7⟩

/-- Every time that ParseMonth returns is a first-of-month instant. -/
theorem ParseMonth_isFirstOfMonth (s : String) (t : time.Time)
    (h : date.ParseMonth s = Except.ok t) : Spec.isFirstOfMonth t := by
  obtain ⟨⟨_, h1, h2⟩, _⟩ := ParseMonth_calendarMonth s t h
  exact ⟨ParseMonth_isMonthStart s t h, h1, h2⟩

/-- An entity built from a body that passed every check, with parsed dates, meets the
data-model invariants whatever its identifier. -/
theorem entityInvariant_of_checks (id : uuid.UUID) (req : CreateRequest) (u : uuid.UUID)
    (st : time.Time) (en : Option time.Time) (h1 : req.ServiceName ≠ "") (h2 : 0 ≤ req.Price)
    (h4 : date.ParseMonth req.StartDate = Except.ok st)
    (h5 : ∀ t, en = some t → (∃ e, date.ParseMonth e = Except.ok t) ∧ t.Before st = false) :
    Spec.entityInvariant { Spec.createdEntity req u st en with ID := id } := by
  refine ⟨h1, h2, ParseMonth_isFirstOfMonth _ _ h4, ?_⟩
  intro t ht
  have hte : en = some t := ht
  obtain ⟨⟨e, he⟩, hb⟩ := h5 t hte
  have hf := ParseMonth_isFirstOfMonth _ _ he
  exact ⟨hf, hb,
    (not_Before_monthStart st t (ParseMonth_isMonthStart _ _ h4) hf.1).mp hb⟩

end Claims

namespace Claims

open subscription repository httpapi

/-- C11: every Subscription entity that Create or Update passes to the gateway satisfies the
data-model invariants: ServiceName is not empty, Price is not negative, StartDate is a
first-of-month 00:00:00 UTC instant, and EndDate is absent or a first-of-month 00:00:00 UTC
instant not before StartDate. In Update the ID of the entity is the UUID parsed from the
path parameter, and in Create the ID is left at the zero UUID. -/
theorem C11_entities_meet_invariants (repo : SubscriptionRepo) :
    (∀ (body : Option CreateRequest) (c : RepoCall), c ∈ (Create repo body).calls →
      ∃ s, c = RepoCall.Create s ∧ Spec.entityInvariant s ∧ s.ID = uuid.Nil) ∧
    (∀ (idStr : String) (body : Option CreateRequest) (c : RepoCall),
      c ∈ (Update repo idStr body).calls →
      ∃ s, c = RepoCall.Update s ∧ Spec.entityInvariant s ∧
        uuid.Parse idStr = some s.ID) := by
  constructor
  · intro body c hc
    rcases Create_outcome repo body with h | ⟨req, u, st, en, _, h1, h2, h4, h5, he⟩
    · rw [h] at hc
      exact absurd hc (List.not_mem_nil c)
    · rw [he, (createEntity_calls repo req u st en).1] at hc
      refine ⟨Spec.createdEntity req u st en, List.mem_singleton.mp hc, ?_, rfl⟩
      exact entityInvariant_of_checks uuid.Nil req u st en h1 h2 h4 h5
  · intro idStr body c hc
    rcases Update_outcome repo idStr body with
      h | ⟨id, req, u, st, en, hid, _, h1, h2, h4, h5, he⟩
    · rw [h] at hc
      exact absurd hc (List.not_mem_nil c)
    · rw [he, updateEntity_calls repo id req u st en] at hc
      exact ⟨{ Spec.createdEntity req u st en with ID := id }, List.mem_singleton.mp hc,
        entityInvariant_of_checks id req u st en h1 h2 h4 h5, hid⟩

theorem C11_entities_meet_invariants_witness :
    (∃ s, RepoCall.Create Examples.goodEntity = RepoCall.Create s ∧ Spec.entityInvariant s ∧
      s.ID = uuid.Nil) ∧
    (∃ s, RepoCall.Update { Examples.goodEntity with ID := Examples.ownerID } =
        RepoCall.Update s ∧ Spec.entityInvariant s ∧
      uuid.Parse Examples.owner = some s.ID) :=
  ⟨(C11_entities_meet_invariants Examples.repoOk).1 (some Examples.goodBody)
      (RepoCall.Create Examples.goodEntity) (List.mem_singleton.mpr rfl),
   (C11_entities_meet_invariants Examples.repoOk).2 Examples.owner (some Examples.goodBody)
      (RepoCall.Update { Examples.goodEntity with ID := Examples.ownerID })
      (List.mem_singleton.mpr rfl)⟩

end Claims
